import Mathlib

/-!
Verification of the resilient step-execution engine of the debugger-agent
repository (src/agent/browser_automation.py): locator-candidate generation,
the retry/fallback resolution loops, the action executors
(navigate/fill/click/wait/verify/screenshot), the context-aware strict
verification mode, and the step orchestrator `run_browser_automation`.

The Python source is shallowly embedded: dictionaries become structures,
the Playwright page becomes a deterministic oracle (`Page`) plus an explicit
DOM tree (`Dom`) over which the structural XPath/CSS queries used by the
verify executor are given executable semantics.  Python string operations
(`lower`, `strip`, `split`, `replace`, `title`, `in`, slicing, `re` patterns)
are re-implemented over `List Char` so that every definition is executable
and proofs can proceed by list induction.  Strings are modelled at the ASCII
level (the source's selectors and keywords are ASCII).
-/

/-! ## Python string primitives over `List Char` -/

/-- Substring test on char lists: does `needle` occur inside `hay`
(Python's `needle in hay`)? -/
def hasSubAux (needle : List Char) : List Char → Bool
  | [] => needle.isEmpty
  | c :: cs => needle.isPrefixOf (c :: cs) || hasSubAux needle cs

/-- Python `sub in s` on strings. -/
def hasSub (s sub : String) : Bool := hasSubAux sub.data s.data

/-- Python `s.lower()` (ASCII model). -/
def pyLower (s : String) : String := String.mk (s.data.map Char.toLower)

/-- Python `s[:n]` (used as `str(e)[:100]` for error truncation). -/
def pyTake (s : String) (n : Nat) : String := String.mk (s.data.take n)

/-- Python `s.strip()` with no argument: strip leading/trailing whitespace. -/
def pyStrip (s : String) : String :=
  String.mk (((s.data.dropWhile Char.isWhitespace).reverse.dropWhile Char.isWhitespace).reverse)

/-- Worker for Python `s.split()`: split on whitespace runs, no empty parts. -/
def splitWsAux : List Char → List Char → List (List Char)
  | [], acc => if acc.isEmpty then [] else [acc.reverse]
  | c :: cs, acc =>
    if c.isWhitespace then
      if acc.isEmpty then splitWsAux cs [] else acc.reverse :: splitWsAux cs []
    else splitWsAux cs (c :: acc)

/-- Python `s.split()` (no separator: whitespace runs, leading/trailing dropped). -/
def pySplitWs (s : String) : List String := (splitWsAux s.data []).map String.mk

/-- Worker for Python `s.replace(pat, rep)`: replace every non-overlapping
occurrence, scanning left to right.  Structural recursion on a fuel that the
caller seeds with the input length (always sufficient, since each step
consumes at least one input character). -/
def replaceAux (p r : List Char) : Nat → List Char → List Char
  | _, [] => []
  | 0, l => l
  | fuel + 1, c :: cs =>
    if p.isPrefixOf (c :: cs) then
      match p with
      | [] => c :: replaceAux p r fuel cs
      | _ :: ps => r ++ replaceAux p r fuel (cs.drop ps.length)
    else c :: replaceAux p r fuel cs

/-- Python `s.replace(pat, rep)`. -/
def pyReplace (s pat rep : String) : String :=
  String.mk (replaceAux pat.data rep.data s.data.length s.data)

/-- Worker for Python `s.title()`: uppercase an alphabetic character that
does not follow an alphabetic character, lowercase the other alphabetic
characters (ASCII model). -/
def titleAux : List Char → Bool → List Char
  | [], _ => []
  | c :: cs, prevAlpha =>
    (if c.isAlpha then (if prevAlpha then c.toLower else c.toUpper) else c)
      :: titleAux cs c.isAlpha

/-- Python `s.title()`. -/
def pyTitle (s : String) : String := String.mk (titleAux s.data false)

/-- Python `s.isdigit()` (ASCII model: nonempty and all decimal digits). -/
def pyIsDigit (s : String) : Bool := !s.data.isEmpty && s.data.all Char.isDigit

/-- `int` of a nonempty decimal digit string. -/
def natOfDigits (l : List Char) : Nat :=
  l.foldl (fun n c => 10 * n + (c.toNat - 48)) 0

/-- The first maximal run of decimal digits of a char list, if any:
the first match of `re.findall(r"\d+", s)`. -/
def firstRunAux : List Char → Option (List Char)
  | [] => none
  | c :: cs => if c.isDigit then some (c :: cs.takeWhile Char.isDigit) else firstRunAux cs

/-- The value the source computes as
`int(re.findall(r"\d+", text)[0]) if numbers else None`: the integer value
of the first contiguous decimal-digit run of `s`, or `none` when `s` holds
no digit. -/
def firstDigitRun (s : String) : Option Nat := (firstRunAux s.data).map natOfDigits

/-- Python `s.find(sub)` (as an `Option`: `none` for `-1`). -/
def pyFindAux (needle : List Char) : List Char → Nat → Option Nat
  | [], i => if needle.isEmpty then some i else none
  | c :: cs, i => if needle.isPrefixOf (c :: cs) then some i else pyFindAux needle cs (i + 1)

/-- Python `s.find(sub) >= 0 ? index : None`. -/
def pyFind (s sub : String) : Option Nat := pyFindAux sub.data s.data 0

/-- Python slicing `s[a:b]` with `0 <= a <= b` already clamped by the caller. -/
def pySlice (s : String) (a b : Nat) : String := String.mk ((s.data.drop a).take (b - a))

/-- Python f-string interpolation of an `Optional[str]`: `None` prints as
`"None"`. -/
def optToStr : Option String → String
  | none => "None"
  | some s => s

/-- Python truthiness of an `Optional[str]`: `None` and `""` are falsy. -/
def truthy : Option String → Bool
  | none => false
  | some s => !s.isEmpty

/-- The single-quote character (39) and double-quote character (34). -/
def squote : Char := Char.ofNat 39

/-- The double-quote character. -/
def dquote : Char := Char.ofNat 34

/-- Is `c` one of the two quote characters of the pattern
`r"['\"]([^'\"]*)['\"]"`? -/
def isQuote (c : Char) : Bool := c = squote || c = dquote

/-! ## Regular expressions of the source

`execute_verify_action` and `generate_fallback_selectors` use two fixed
`re` patterns; both are compiled by hand to executable functions. -/

/-- Worker for the first match of `re.search(r"['\"]([^'\"]*)['\"]", s)`:
the first capture is the text between the first quote character and the
next quote character after it, when such a closing quote exists. -/
def extractQuotedAux (l : List Char) : Option (List Char) :=
  match l.dropWhile (fun c => !isQuote c) with
  | [] => none
  | _ :: rest =>
    let body := rest.takeWhile (fun c => !isQuote c)
    if (rest.drop body.length).isEmpty then none else some body

/-- Group 1 of the first match of `re.search(r"['\"]([^'\"]*)['\"]", target)`.
Also the first element of `re.findall` with the same pattern, which is
what the selector generator reads. -/
def extractQuoted (target : String) : Option String :=
  (extractQuotedAux target.data).map String.mk

/-- A `\w` character of the location pattern (ASCII model). -/
def isWordChar (c : Char) : Bool := c.isAlphanum || c = '_'

/-- After the `\w+` capture the pattern needs a space and then one of the
literals `tab`, `section`, `area`. -/
def locKeywordAfter (l : List Char) : Bool :=
  match l with
  | c :: rest =>
    c = ' ' && ("tab".data.isPrefixOf rest || "section".data.isPrefixOf rest
      || "area".data.isPrefixOf rest)
  | [] => false

/-- Try to match `(\w+) (tab|section|area)` at the head of `l`, returning
the capture.  `\w+` is greedy; since a space is not a word character, only
the maximal word-character run can be followed by the literal space. -/
def locTail (l : List Char) : Option (List Char) :=
  let run := l.takeWhile isWordChar
  if run.isEmpty then none
  else if locKeywordAfter (l.drop run.length) then some run else none

/-- Try to match `in (?:the )?(\w+) (tab|section|area)` at the head of `l`:
the greedy optional group tries `the ` first and backtracks. -/
def locMatchHere (l : List Char) : Option (List Char) :=
  if "in ".data.isPrefixOf l then
    let q := l.drop 3
    match (if "the ".data.isPrefixOf q then locTail (q.drop 4) else none) with
    | some r => some r
    | none => locTail q
  else none

/-- `re.search` scans start positions left to right. -/
def locSearch : List Char → Option (List Char)
  | [] => none
  | c :: cs =>
    match locMatchHere (c :: cs) with
    | some r => some r
    | none => locSearch cs

/-- Group 1 of `re.search(r"in (?:the )?(\w+) (tab|section|area)", s)`;
the source applies it to the lower-cased target. -/
def extractLocation (s : String) : Option String := (locSearch s.data).map String.mk

/-! ## Order-preserving deduplication

Both `execute_click_action` and `generate_fallback_selectors` end with the
same idiom: a `seen` set and a loop that keeps the first occurrence of each
selector. -/

/-- The source's `seen`-set loop: keep each entry the first time it is met. -/
def dedupFirstAux (seen : List String) : List String → List String
  | [] => []
  | s :: rest =>
    if s ∈ seen then dedupFirstAux seen rest
    else s :: dedupFirstAux (s :: seen) rest

/-- Remove duplicates keeping the first occurrence, preserving order. -/
def dedupFirst (l : List String) : List String := dedupFirstAux [] l

theorem dedupFirstAux_sublist (seen : List String) (l : List String) :
    (dedupFirstAux seen l).Sublist l := by
  induction l generalizing seen with
  | nil => simp [dedupFirstAux]
  | cons s rest ih =>
    simp only [dedupFirstAux]
    split
    · exact (ih seen).cons s
    · exact (ih (s :: seen)).cons₂ s

theorem mem_dedupFirstAux (seen : List String) (l : List String) (a : String) :
    a ∈ dedupFirstAux seen l ↔ a ∈ l ∧ a ∉ seen := by
  induction l generalizing seen with
  | nil => simp [dedupFirstAux]
  | cons s rest ih =>
    simp only [dedupFirstAux]
    split
    next h =>
      rw [ih seen]
      constructor
      · rintro ⟨hr, hs⟩
        exact ⟨List.mem_cons_of_mem _ hr, hs⟩
      · rintro ⟨hm, hs⟩
        rcases List.mem_cons.mp hm with rfl | hr
        · exact absurd h hs
        · exact ⟨hr, hs⟩
    next h =>
      constructor
      · intro hm
        rcases List.mem_cons.mp hm with rfl | hr
        · exact ⟨List.mem_cons_self _ _, h⟩
        · rw [ih (s :: seen)] at hr
          exact ⟨List.mem_cons_of_mem _ hr.1, fun hs => hr.2 (List.mem_cons_of_mem _ hs)⟩
      · rintro ⟨hm, hs⟩
        rcases List.mem_cons.mp hm with rfl | hr
        · exact List.mem_cons_self _ _
        · by_cases hsa : a = s
          · subst hsa; exact List.mem_cons_self _ _
          · exact List.mem_cons_of_mem _ ((ih (s :: seen)).mpr
              ⟨hr, fun hc => (List.mem_cons.mp hc).elim hsa hs⟩)

theorem dedupFirstAux_nodup (seen : List String) (l : List String) :
    (dedupFirstAux seen l).Nodup := by
  induction l generalizing seen with
  | nil => simp [dedupFirstAux]
  | cons s rest ih =>
    simp only [dedupFirstAux]
    split
    · exact ih seen
    · refine List.Nodup.cons ?_ (ih (s :: seen))
      intro hmem
      exact ((mem_dedupFirstAux _ _ _).mp hmem).2 (List.mem_cons_self _ _)

theorem dedupFirst_nodup (l : List String) : (dedupFirst l).Nodup :=
  dedupFirstAux_nodup [] l

theorem dedupFirst_sublist (l : List String) : (dedupFirst l).Sublist l :=
  dedupFirstAux_sublist [] l

theorem mem_dedupFirst (l : List String) (a : String) : a ∈ dedupFirst l ↔ a ∈ l := by
  rw [dedupFirst, mem_dedupFirstAux]
  simp

/-! ## `generate_fallback_selectors`

A pure function of the target description (source lines 747-991).  The raw,
pre-deduplication list is `rawFallbackSelectors`; the function returns it
deduplicated keeping first occurrences. -/

/-- The xpath fragment `contains(translate(ARG, 'ABC…', 'abc…'), 'S')` the
source's f-strings build for case-insensitive containment. -/
def xlate (arg s : String) : String :=
  "contains(translate(" ++ arg ++
    ", 'ABCDEFGHIJKLMNOPQRSTUVWXYZ', 'abcdefghijklmnopqrstuvwxyz'), '" ++ s ++ "')"

/-- One PRIORITY-1 selector of the button family: header level `h` with the
context text, nearest div ancestor, button with the action keyword. -/
def btnHeaderSel (h ctx btn : String) : String :=
  "//" ++ h ++ "[contains(., '" ++ ctx ++ "')]/ancestor::div[1]//button[" ++
    xlate "text()" btn ++ "]"

/-- The words the tab family drops when no quoted tab name is present. -/
def tabStopWords : List String := ["click", "on", "the", "tab", "button"]

/-- The words the button family blanks out of the lowered target before
extracting action keywords (replaced in this order, as substrings). -/
def buttonStopWords : List String :=
  ["button", "btn", "click", "on", "the", "of", "a", "an", "for", "in", "task"]

/-- The selector list of `generate_fallback_selectors` before the final
deduplication: the keyword families in the source's priority order
(email/username before password before tab/nav before button before link,
else the generic family), first match wins. -/
def rawFallbackSelectors (target : String) : List String :=
  let target_lower := pyLower target
  if hasSub target_lower "email" || hasSub target_lower "username"
      || hasSub target_lower "user" then
    ["#email", "#username", "#user", "#login-email", "#user-email",
     "input[name='email']", "input[name='username']", "input[name='user']",
     "input[type='email']", "input[type='text']",
     "input[placeholder*='email' i]", "input[placeholder*='username' i]",
     "input[placeholder*='user' i]",
     ".email-input", ".login-email", ".user-email", ".username-input",
     "input[aria-label*='email' i]", "input[aria-label*='username' i]",
     "input[data-testid='email']", "input[data-testid='username']"]
  else if hasSub target_lower "password" || hasSub target_lower "pass" then
    ["#password", "#passwd", "#pass", "#user-password", "#login-password",
     "input[name='password']", "input[name='passwd']", "input[name='pass']",
     "input[type='password']",
     "input[placeholder*='password' i]", "input[placeholder*='pass' i]",
     ".password-input", ".login-password",
     "input[aria-label*='password' i]",
     "input[data-testid='password']"]
  else if hasSub target_lower "tab" || hasSub target_lower "nav" then
    let words := (pySplitWs target).filter (fun w => !(tabStopWords.contains (pyLower w)))
    let tab_name :=
      match extractQuoted target with
      | some s => if s.isEmpty then words.head?.getD "tab" else s
      | none => words.head?.getD "tab"
    let tl := pyLower tab_name
    ["a.nav-link:has-text('" ++ tab_name ++ "')",
     "//a[contains(@class, 'nav-link')][contains(., '" ++ tab_name ++ "')]",
     "//a[contains(@class, 'nav-link')][" ++ xlate "." tl ++ "]",
     ".nav-item a:has-text('" ++ tab_name ++ "')",
     "//li[contains(@class, 'nav-item')]//a[contains(., '" ++ tab_name ++ "')]",
     "a[href*='" ++ tl ++ "']",
     "a[href*='filter=" ++ tl ++ "']",
     "//a[contains(@href, '" ++ tl ++ "')]",
     "//a[contains(@href, 'filter=" ++ tl ++ "')]",
     "a[role='tab']:has-text('" ++ tab_name ++ "')",
     "button[role='tab']:has-text('" ++ tab_name ++ "')",
     "//a[@role='tab'][contains(., '" ++ tab_name ++ "')]",
     "[class*='nav-link']:has-text('" ++ tab_name ++ "')",
     "[class*='nav']:has-text('" ++ tab_name ++ "')",
     ".tab:has-text('" ++ tab_name ++ "')",
     ".tab-button:has-text('" ++ tab_name ++ "')",
     "a:has-text('" ++ tab_name ++ "')",
     "button:has-text('" ++ tab_name ++ "')",
     "//a[" ++ xlate "text()" tl ++ "]",
     ".nav-link", ".nav-item a",
     "[role='tab']",
     ".tab", ".tab-button",
     "a", "button"]
  else if hasSub target_lower "button" || hasSub target_lower "submit"
      || hasSub target_lower "btn" || hasSub target_lower "click" then
    let cleaned := buttonStopWords.foldl (fun s w => pyReplace s w " ") target_lower
    let quoted := extractQuoted target
    let keywords := (pySplitWs cleaned).filter (fun k => 2 < k.length)
    if quoted.isSome && !keywords.isEmpty then
      let button_text := keywords.head?.getD "button"
      let context_text := quoted.getD ""
      let context_lower := pyLower context_text
      [btnHeaderSel "h1" context_text button_text,
       btnHeaderSel "h2" context_text button_text,
       btnHeaderSel "h3" context_text button_text,
       btnHeaderSel "h4" context_text button_text,
       btnHeaderSel "h5" context_text button_text,
       btnHeaderSel "h6" context_text button_text,
       "//h5[contains(., '" ++ context_text ++ "')]/ancestor::div[contains(@class, 'card')]//button",
       "//h5[contains(., '" ++ context_text ++ "')]/ancestor::div[contains(@class, 'row')]//button",
       "//h4[contains(., '" ++ context_text ++ "')]/ancestor::div[contains(@class, 'card')]//button",
       "//h3[contains(., '" ++ context_text ++ "')]/ancestor::div[contains(@class, 'card')]//button",
       "//h5[contains(., '" ++ context_text ++ "')]/ancestor::*[self::div or self::li or self::tr][1]//button",
       "//h5[" ++ xlate "." context_lower ++ "]/ancestor::div[1]//button",
       "//h4[" ++ xlate "." context_lower ++ "]/ancestor::div[1]//button",
       "//div[contains(., '" ++ context_text ++ "')]//button[" ++ xlate "text()" button_text ++ "]",
       "//li[contains(., '" ++ context_text ++ "')]//button[" ++ xlate "text()" button_text ++ "]",
       "//tr[contains(., '" ++ context_text ++ "')]//button[" ++ xlate "text()" button_text ++ "]",
       ".card:has-text('" ++ context_text ++ "') button:has-text('" ++ pyTitle button_text ++ "')",
       ".task-item:has-text('" ++ context_text ++ "') button:has-text('" ++ button_text ++ "')",
       ".item:has-text('" ++ context_text ++ "') button:has-text('" ++ button_text ++ "')",
       "[data-task-name='" ++ context_text ++ "'] button",
       "[data-item-name='" ++ context_text ++ "'] button",
       "[data-name='" ++ context_text ++ "'] button",
       "//div[contains(., '" ++ context_text ++ "')]//button",
       "//li[contains(., '" ++ context_text ++ "')]//button",
       "button:has-text('" ++ pyTitle button_text ++ "')",
       "button:has-text('" ++ button_text ++ "')",
       "//button[" ++ xlate "text()" button_text ++ "]",
       "button." ++ button_text, ".btn-" ++ button_text,
       "button[data-action='" ++ button_text ++ "']",
       "button[aria-label*='" ++ button_text ++ "' i]",
       "button[type='button']", "button[type='submit']",
       "button", ".btn"]
    else if !keywords.isEmpty then
      let button_text := keywords.head?.getD "button"
      ["#" ++ button_text ++ "-btn", "#" ++ button_text ++ "-button", "#" ++ button_text,
       "button:has-text('" ++ pyTitle button_text ++ "')",
       "button:has-text('" ++ button_text ++ "')",
       "//button[contains(text(), '" ++ button_text ++ "')]",
       "button." ++ button_text, ".btn-" ++ button_text,
       "button[type='submit']", "button", ".btn"]
    else
      ["button[type='submit']", "input[type='submit']",
       "button", ".btn", ".button",
       "a[role='button']"]
  else if hasSub target_lower "link" then
    let link_text := pyStrip (pyReplace target_lower "link" "")
    ["a:has-text('" ++ link_text ++ "')", "a[href*='" ++ link_text ++ "']",
     "a", ".link"]
  else
    ["#" ++ target, "#" ++ pyReplace target " " "-", "#" ++ pyReplace target " " "_",
     "[name='" ++ target ++ "']", "[name='" ++ pyReplace target " " "-" ++ "']",
     "." ++ target, "." ++ pyReplace target " " "-", "." ++ pyReplace target " " "_",
     "[class*='" ++ target ++ "']", "[class*='" ++ pyReplace target " " "-" ++ "']",
     "[data-testid='" ++ target ++ "']", "[data-testid*='" ++ target ++ "']",
     "[data-id='" ++ target ++ "']", "[data-name='" ++ target ++ "']",
     "h1", "h2", "h3", ".metric", ".stat", ".count", ".value",
     "div", "span", "p"]

/-- `generate_fallback_selectors(target)`: the family list deduplicated
preserving first occurrences (source lines 983-991). -/
def generate_fallback_selectors (target : String) : List String :=
  dedupFirst (rawFallbackSelectors target)

/-! ## Execution results

The dictionaries returned by the executors become one structure; a key the
source leaves out of a dict is `none` (Python `result.get(k)` then yields
`None`). -/

/-- The result dictionary of a step execution.  `selector_used` is the
matched locator, `screenshot` the artifact reference. -/
structure StepResult where
  status : String
  message : String
  selector_used : Option String := none
  text_content : Option String := none
  numeric_value : Option Nat := none
  context : Option String := none
  location : Option String := none
  location_verified : Option Bool := none
  location_mismatch : Option Bool := none
  screenshot : Option String := none
  error : Option String := none
deriving DecidableEq, Repr

/-! ## The DOM model

The verify executor's structural XPath/CSS queries are interpreted over an
explicit element tree.  Attributes are kept raw: XPath
`contains(@class, c)` is a substring test on the attribute string, while
the JS `classList.contains(c)` used by `el.closest('.tab-pane')` is an
exact whitespace-separated-token test — the source mixes both. -/

/-- The attributes of one element that the source's queries look at. -/
structure ElemData where
  tag : String
  classAttr : String := ""
  roleAttr : String := ""
  styleAttr : String := ""
  visible : Bool := true
  ownText : String := ""
deriving Repr

/-- An element tree. -/
inductive Dom where
  | node : ElemData → List Dom → Dom
deriving Repr

/-- The element's own data. -/
def Dom.data : Dom → ElemData
  | .node d _ => d

/-- The element's children. -/
def Dom.children : Dom → List Dom
  | .node _ cs => cs

mutual

/-- Playwright `text_content`: the concatenated text of the subtree
(own text first, then the children in order). -/
def textContent : Dom → String
  | .node d cs => d.ownText ++ textContentList cs

/-- Concatenated text of a forest. -/
def textContentList : List Dom → String
  | [] => ""
  | c :: cs => textContent c ++ textContentList cs

end

mutual

/-- Every element of the tree in document (preorder) order, each paired
with its ancestor chain, nearest ancestor first. -/
def collect : Dom → List Dom → List (Dom × List Dom)
  | .node d cs, anc => (Dom.node d cs, anc) :: collectList cs (Dom.node d cs :: anc)

/-- `collect` over a forest. -/
def collectList : List Dom → List Dom → List (Dom × List Dom)
  | [], _ => []
  | c :: cs, anc => collect c anc ++ collectList cs anc

end

/-- All elements of the document with their ancestor chains. -/
def allNodes (dom : Dom) : List (Dom × List Dom) := collect dom []

/-- All strict descendants of an element (what a CSS query or `.//…` XPath
on an element handle searches). -/
def descendants (n : Dom) : List Dom := (collectList n.children []).map (·.1)

/-- XPath `contains(@class, c)`: substring of the raw class attribute. -/
def hasClassSub (d : ElemData) (c : String) : Bool := hasSub d.classAttr c

/-- JS `classList.contains(c)`: exact token of the class attribute. -/
def hasClassToken (d : ElemData) (c : String) : Bool := (pySplitWs d.classAttr).contains c

/-- JS `el.closest('.tab-pane')`: nearest ancestor-or-self whose class
token list holds `tab-pane`. -/
def closestTabPane (n : Dom) (anc : List Dom) : Option Dom :=
  (n :: anc).find? (fun t => hasClassToken t.data "tab-pane")

/-- The source's double-check script: the element is in the wrong tab iff
its closest `.tab-pane` exists and lacks the `active` class token
(no `.tab-pane` ancestor at all means not wrong). -/
def isInWrongTab (n : Dom) (anc : List Dom) : Bool :=
  match closestTabPane n anc with
  | none => false
  | some t => !hasClassToken t.data "active"

/-- Ancestor condition of strict patterns 1-2: a `div` ancestor whose class
attribute contains both `tab-pane` and `active` as substrings. -/
def inActiveTabPaneDiv (anc : List Dom) : Bool :=
  anc.any (fun a => a.data.tag == "div" && hasClassSub a.data "tab-pane"
    && hasClassSub a.data "active")

/-- Ancestor condition of strict patterns 3-4: a `div` ancestor with
`role='tabpanel'` whose style attribute does not contain `display: none`. -/
def inVisibleTabpanelDiv (anc : List Dom) : Bool :=
  anc.any (fun a => a.data.tag == "div" && a.data.roleAttr == "tabpanel"
    && !hasSub a.data.styleAttr "display: none")

/-- No ancestor with `display: none` in its style attribute (strict
patterns 5-6, generated but never tried: the source slices `[:4]`). -/
def noHiddenAncestor (anc : List Dom) : Bool :=
  !anc.any (fun a => hasSub a.data.styleAttr "display: none")

/-- The six `context_patterns` of strict mode, each with its query
semantics over the document.  XPath node-set deduplication is not
modelled; the filters scan in document order. -/
def strictPatterns (dom : Dom) (ctx : String) : List (String × List (Dom × List Dom)) :=
  [("//div[contains(@class, 'tab-pane') and contains(@class, 'active')]//h5[contains(., '"
      ++ ctx ++ "')]",
    (allNodes dom).filter (fun p => p.1.data.tag == "h5" && hasSub (textContent p.1) ctx
      && inActiveTabPaneDiv p.2)),
   ("//div[contains(@class, 'tab-pane') and contains(@class, 'active')]//*[contains(., '"
      ++ ctx ++ "')]",
    (allNodes dom).filter (fun p => hasSub (textContent p.1) ctx && inActiveTabPaneDiv p.2)),
   ("//div[@role='tabpanel' and not(contains(@style, 'display: none'))]//h5[contains(., '"
      ++ ctx ++ "')]",
    (allNodes dom).filter (fun p => p.1.data.tag == "h5" && hasSub (textContent p.1) ctx
      && inVisibleTabpanelDiv p.2)),
   ("//div[@role='tabpanel' and not(contains(@style, 'display: none'))]//*[contains(., '"
      ++ ctx ++ "')]",
    (allNodes dom).filter (fun p => hasSub (textContent p.1) ctx && inVisibleTabpanelDiv p.2)),
   ("//h5[contains(., '" ++ ctx ++ "') and not(ancestor::*[contains(@style, 'display: none')])]",
    (allNodes dom).filter (fun p => p.1.data.tag == "h5" && hasSub (textContent p.1) ctx
      && noHiddenAncestor p.2)),
   ("//*[contains(., '" ++ ctx ++ "') and not(ancestor::*[contains(@style, 'display: none')])]",
    (allNodes dom).filter (fun p => hasSub (textContent p.1) ctx && noHiddenAncestor p.2))]

/-- Inner loop of strict mode over one pattern's matches: skip invisible
elements, elements not containing the anchor, and elements whose closest
`.tab-pane` is inactive; succeed on the first remaining one. -/
def strictElemLoop (ctx loc patStr : String) : List (Dom × List Dom) → Option StepResult
  | [] => none
  | (n, anc) :: rest =>
    if !n.data.visible then strictElemLoop ctx loc patStr rest
    else
      let t := textContent n
      if !t.isEmpty && hasSub t ctx then
        if isInWrongTab n anc then strictElemLoop ctx loc patStr rest
        else
          some { status := "success",
                 message := "Verified: Found '" ++ ctx ++ "' in '" ++ loc ++ "' tab: "
                   ++ pyTake (pyStrip t) 100,
                 selector_used := some patStr,
                 text_content := some (pyStrip t),
                 context := some ctx,
                 location := some loc,
                 location_verified := some true }
      else strictElemLoop ctx loc patStr rest

/-- Outer loop of strict mode over the (first four) patterns. -/
def strictPatLoop (ctx loc : String) : List (String × List (Dom × List Dom)) → Option StepResult
  | [] => none
  | (ps, ms) :: rest =>
    match strictElemLoop ctx loc ps ms with
    | some r => some r
    | none => strictPatLoop ctx loc rest

/-- The `other locations` diagnostic query
`//h5[contains(., ctx)] | //*[contains(text(), ctx)]` (XPath `text()`
modelled as the element's own text). -/
def otherLocMatches (dom : Dom) (ctx : String) : List Dom :=
  ((allNodes dom).filter (fun p => (p.1.data.tag == "h5" && hasSub (textContent p.1) ctx)
    || hasSub p.1.data.ownText ctx)).map (·.1)

/-- Strict mode of `execute_verify_action` (source lines 431-539): search
the anchor only inside active-tab content; when no pattern yields a match
in the right place, return the definitive LOCATION MISMATCH failure whose
`selector_used` is the sentinel `location_validation`.  The active-tab
confirmation step of the source only logs and is omitted. -/
def strictVerify (dom : Dom) (ctx loc : String) : StepResult :=
  match strictPatLoop ctx loc ((strictPatterns dom ctx).take 4) with
  | some r => r
  | none =>
    let cnt := ((otherLocMatches dom ctx).take 5).countP (fun n => n.data.visible)
    { status := "failed",
      message := "LOCATION MISMATCH: '" ++ ctx ++ "' NOT found in '" ++ loc ++ "' tab "
        ++ (if 0 < cnt then "(found in " ++ toString cnt ++ " other location(s))"
            else "(not found anywhere)"),
      selector_used := some "location_validation",
      text_content := some ("Expected in '" ++ loc ++ "' but not present"),
      context := some ctx,
      location := some loc,
      location_verified := some false,
      location_mismatch := some true }

/-! ## The page oracle

Free-form selector resolution (the supplied/generated candidate strings)
cannot be interpreted structurally, so the Playwright driver calls that
take a selector string become deterministic oracle functions; the
structural queries of the verify executor read `Page.dom` instead.  The
page is fixed for a run (cross-step DOM mutation is outside the claims,
which are all per-step control flow except the orchestrator's, which is
mutation-independent). -/

/-- An element handle as the click/verify loops see one. -/
structure Elem where
  visible : Bool := true
  text : Option String := none
  clickErr : Option String := none
deriving DecidableEq, Repr

/-- Outcome of one fill probe of a candidate selector: some driver stage
(`wait_for_selector`, `fill`, `input_value`) raised, or the field was
written and now reads back `readBack`. -/
inductive FillOutcome where
  | err (msg : String)
  | ok (readBack : String)
deriving DecidableEq, Repr

/-- Outcome of `wait_for_selector` + `query_selector_all` for one click
candidate: raised, or the matched element handles. -/
inductive ClickOutcome where
  | err (msg : String)
  | found (elems : List Elem)
deriving DecidableEq, Repr

/-- The deterministic driver oracle. -/
structure Page where
  dom : Dom
  goto : String → Except String Unit
  wait_for_selector : String → Except String (Option Elem)
  fillProbe : String → String → FillOutcome
  clickProbe : String → ClickOutcome
  timestamp : String := "ts"

/-! ## Verify executor (source lines 399-744) -/

/-- Strategy 1: try the supplied/generated selectors in order
(source lines 543-589).  Returns the first success and threads
`last_error`; a visible element whose text lacks the anchor is skipped
without touching `last_error`. -/
def s1Loop (page : Page) (ctx : Option String) (target : String) :
    List String → Option String → Option StepResult × Option String
  | [], le => (none, le)
  | sel :: rest, le =>
    match page.wait_for_selector sel with
    | .error e => s1Loop page ctx target rest (some (pyTake e 100))
    | .ok none => s1Loop page ctx target rest (some "Element not found")
    | .ok (some el) =>
      if el.visible then
        if truthy el.text then
          let t := pyStrip (el.text.getD "")
          if truthy ctx && !hasSub t (ctx.getD "") then s1Loop page ctx target rest le
          else
            let num := firstDigitRun t
            (some { status := "success",
                    message := "Element '" ++ target ++ "' found. Content: " ++ t
                      ++ (match num with
                          | some v => " (Value: " ++ toString v ++ ")"
                          | none => ""),
                    selector_used := some sel,
                    text_content := some t,
                    numeric_value := num }, le)
        else
          (some { status := "success",
                  message := "Element '" ++ target ++ "' is visible",
                  selector_used := some sel }, le)
      else s1Loop page ctx target rest (some "Element exists but not visible")

/-- Nearest `div` ancestor (`/ancestor::div[1]`), with its own ancestors. -/
def nearestDivAnc : List Dom → Option (Dom × List Dom)
  | [] => none
  | a :: rest => if a.data.tag == "div" then some (a, rest) else nearestDivAnc rest

/-- The seven `context_patterns` of strategy 2 (source lines 596-606),
each with its query semantics. -/
def ctxPatterns (dom : Dom) (ctx : String) : List (String × List (Dom × List Dom)) :=
  [("//h5[contains(., '" ++ ctx ++ "')]/ancestor::div[1]",
    (allNodes dom).filterMap (fun p =>
      if p.1.data.tag == "h5" && hasSub (textContent p.1) ctx then nearestDivAnc p.2 else none)),
   ("//h4[contains(., '" ++ ctx ++ "')]/ancestor::div[1]",
    (allNodes dom).filterMap (fun p =>
      if p.1.data.tag == "h4" && hasSub (textContent p.1) ctx then nearestDivAnc p.2 else none)),
   ("//h3[contains(., '" ++ ctx ++ "')]/ancestor::div[1]",
    (allNodes dom).filterMap (fun p =>
      if p.1.data.tag == "h3" && hasSub (textContent p.1) ctx then nearestDivAnc p.2 else none)),
   ("//div[contains(@class, 'card')][.//*[contains(., '" ++ ctx ++ "')]]",
    (allNodes dom).filter (fun p => p.1.data.tag == "div" && hasClassSub p.1.data "card"
      && (descendants p.1).any (fun q => hasSub (textContent q) ctx))),
   ("//div[contains(@class, 'task')][.//*[contains(., '" ++ ctx ++ "')]]",
    (allNodes dom).filter (fun p => p.1.data.tag == "div" && hasClassSub p.1.data "task"
      && (descendants p.1).any (fun q => hasSub (textContent q) ctx))),
   ("//li[contains(., '" ++ ctx ++ "')]",
    (allNodes dom).filter (fun p => p.1.data.tag == "li" && hasSub (textContent p.1) ctx)),
   ("//tr[contains(., '" ++ ctx ++ "')]",
    (allNodes dom).filter (fun p => p.1.data.tag == "tr" && hasSub (textContent p.1) ctx))]

/-- JS `el.closest('[role="tabpanel"], .tab-pane, .section')?.textContent
|| ''` used by strategy 2's location validation. -/
def closestPanelText (n : Dom) (anc : List Dom) : String :=
  match (n :: anc).find? (fun t => t.data.roleAttr == "tabpanel"
      || hasClassToken t.data "tab-pane" || hasClassToken t.data "section") with
  | some t => textContent t
  | none => ""

/-- The tags of a strategy-2 container's inner query
`span, h1, h2, div, p`. -/
def s2InnerTags : List String := ["span", "h1", "h2", "div", "p"]

/-- Strategy 2, inner loop over a container's text-bearing descendants
(source lines 638-661). -/
def s2ElemLoop (pat ctx : String) (loc : Option String) (target : String) :
    List Dom → Option StepResult
  | [] => none
  | e :: rest =>
    if !e.data.visible then s2ElemLoop pat ctx loc target rest
    else
      let t0 := textContent e
      if t0.isEmpty then s2ElemLoop pat ctx loc target rest
      else
        let t := pyStrip t0
        let num := firstDigitRun t
        if num.isSome || !t.isEmpty then
          some { status := "success",
                 message := "Found '" ++ target ++ "' in context of '" ++ ctx ++ "'"
                   ++ (match loc with
                       | some l => " in '" ++ l ++ "'"
                       | none => "")
                   ++ ": " ++ t
                   ++ (match num with
                       | some v => " (Value: " ++ toString v ++ ")"
                       | none => ""),
                 selector_used := some pat,
                 text_content := some t,
                 numeric_value := num,
                 context := some ctx,
                 location := loc }
        else s2ElemLoop pat ctx loc target rest

/-- Strategy 2, loop over one pattern's containers (source lines 608-663):
a container must be visible and hold the anchor; if a location hint is
present (dead in practice: strict mode already returned) the container or
its closest panel must mention it. -/
def s2ContLoop (pat ctx : String) (loc : Option String) (target : String) :
    List (Dom × List Dom) → Option StepResult
  | [] => none
  | (cont, anc) :: rest =>
    if !cont.data.visible then s2ContLoop pat ctx loc target rest
    else
      let ct := textContent cont
      if ct.isEmpty || !hasSub ct ctx then s2ContLoop pat ctx loc target rest
      else
        let locOk :=
          match loc with
          | none => true
          | some l =>
            hasSub (pyLower ct) l || hasSub (pyLower (closestPanelText cont anc)) l
        if !locOk then s2ContLoop pat ctx loc target rest
        else
          match s2ElemLoop pat ctx loc target
              ((descendants cont).filter (fun n => s2InnerTags.contains n.data.tag)) with
          | some r => some r
          | none => s2ContLoop pat ctx loc target rest

/-- Strategy 2, loop over the seven context patterns. -/
def s2PatLoop (ctx : String) (loc : Option String) (target : String) :
    List (String × List (Dom × List Dom)) → Option StepResult
  | [] => none
  | (ps, ms) :: rest =>
    match s2ContLoop ps ctx loc target ms with
    | some r => some r
    | none => s2PatLoop ctx loc target rest

/-- The tags of strategy 4's page-wide text query. -/
def s4Tags : List String := ["span", "div", "h1", "h2", "h3", "h4", "h5", "p", "td", "li"]

/-- Strategy 4's elements: the page-wide tag query, first 50. -/
def s4Query (dom : Dom) : List Dom :=
  (((allNodes dom).map (·.1)).filter (fun n => s4Tags.contains n.data.tag)).take 50

/-- Strategy 4: keyword-overlap scan (source lines 682-714). -/
def s4Loop (target : String) : List Dom → Option StepResult
  | [] => none
  | e :: rest =>
    if !e.data.visible then s4Loop target rest
    else
      let t := textContent e
      if t.isEmpty then s4Loop target rest
      else
        let tl := pyLower (pyStrip t)
        let keywords := pySplitWs (pyReplace (pyReplace (pyLower target) "'" "") "\"" "")
        if keywords.any (fun k => hasSub tl k) then
          let num := firstDigitRun t
          some { status := "success",
                 message := "Found element containing '" ++ target ++ "': " ++ pyStrip t
                   ++ (match num with
                       | some v => " (Value: " ++ toString v ++ ")"
                       | none => ""),
                 text_content := some (pyStrip t),
                 numeric_value := num }
        else s4Loop target rest

/-- Strategy 5: raw page-text search yielding a `partial` result with a
snippet (source lines 716-741); `document.body.innerText` is modelled as
the document's text content. -/
def s5Partial (dom : Dom) (target : String) (step_number : Nat) (ts : String) :
    Option StepResult :=
  let body_text := textContent dom
  let target_clean := pyReplace (pyReplace (pyLower target) "'" "") "\"" ""
  let ws := pySplitWs target_clean
  if ws.any (fun w => hasSub (pyLower body_text) w) then
    match pyFind (pyLower body_text) (ws.head?.getD "") with
    | some idx =>
      let snippet := pySlice body_text (idx - 50)
        (min body_text.data.length (idx + 100))
      some { status := "partial",
             message := "Text '" ++ target
               ++ "' found in page content but element not properly located. Context: "
               ++ snippet,
             text_content := some snippet,
             screenshot := some ("screenshots/verify_failed_step_" ++ toString step_number
               ++ "_" ++ ts ++ ".png") }
    | none => none
  else none

/-- `execute_verify_action(page, selectors, target, step_number)`
(source lines 399-744).  The initial stabilization waits have no effect on
the returned dictionary and are omitted; strategy 3 is dead code in the
source (`found_elements` is never populated) and contributes nothing. -/
def execute_verify_action (page : Page) (selectors0 : List String) (target : String)
    (step_number : Nat) : Except String StepResult :=
  let selectors := if selectors0.isEmpty then generate_fallback_selectors target else selectors0
  let context_text := extractQuoted target
  let expected_location := extractLocation (pyLower target)
  if truthy context_text && expected_location.isSome then
    .ok (strictVerify page.dom (context_text.getD "") (expected_location.getD ""))
  else
    match s1Loop page context_text target selectors none with
    | (some r, _) => .ok r
    | (none, le) =>
      match (if truthy context_text then
          s2PatLoop (context_text.getD "") expected_location target
            (ctxPatterns page.dom (context_text.getD ""))
        else none) with
      | some r => .ok r
      | none =>
        match s4Loop target (s4Query page.dom) with
        | some r => .ok r
        | none =>
          match s5Partial page.dom target step_number page.timestamp with
          | some r => .ok r
          | none =>
            .error ("Verification of '" ++ target ++ "' failed after trying "
              ++ toString selectors.length ++ " selectors. Last error: " ++ optToStr le)

/-! ## Fill and click executors (source lines 228-396)

Each loop also returns the list of candidates actually probed, in order:
the observable driver-interaction trace of the resolution loop. -/

/-- The length-preserving mask `"*" * len(value)` the source logs in place
of a password value. -/
def maskValue (value : String) : String :=
  String.mk (List.replicate value.data.length '*')

/-- The value `execute_step` displays (source lines 84-92): masked when
the target or the step description mentions `password`. -/
def execute_step_display_value (target description value : String) : String :=
  if !value.isEmpty && (hasSub (pyLower target) "password"
      || hasSub (pyLower description) "password") then
    maskValue value
  else value

/-- The value `execute_fill_action` displays (source lines 234-236). -/
def fill_display_value (target value : String) : String :=
  if hasSub (pyLower target) "password" then maskValue value else value

/-- The fill retry loop (source lines 240-269): probe each candidate; on a
driver error truncate it into `last_error` and continue; on success read
the field back and, unless the target is a password, treat a mismatch as
`Value mismatch` and continue; stop at the first fully successful
candidate.  Returns `((first success?, last_error), candidates probed)`. -/
def fill_attempts (probe : String → String → FillOutcome) (value target : String)
    (is_password : Bool) :
    List String → Option String → (Option StepResult × Option String) × List String
  | [], le => ((none, le), [])
  | sel :: rest, le =>
    match probe sel value with
    | .err e =>
      let r := fill_attempts probe value target is_password rest (some (pyTake e 100))
      (r.1, sel :: r.2)
    | .ok rb =>
      if !is_password && rb != value then
        let r := fill_attempts probe value target is_password rest (some "Value mismatch")
        (r.1, sel :: r.2)
      else
        ((some { status := "success",
                 message := "Filled '" ++ target ++ "' successfully",
                 selector_used := some sel }, le), [sel])

/-- `execute_fill_action(page, selectors, value, target, step_number)`
(source lines 228-272), paired with the probed-candidate trace. -/
def execute_fill_action (page : Page) (selectors0 : List String) (value target : String)
    (step_number : Nat) : Except String StepResult × List String :=
  let selectors := if selectors0.isEmpty then generate_fallback_selectors target else selectors0
  let is_password := hasSub (pyLower target) "password"
  match fill_attempts page.fillProbe value target is_password selectors none with
  | ((some r, _), tried) => (.ok r, tried)
  | ((none, le), tried) =>
    (.error ("Failed to fill '" ++ target ++ "' after " ++ toString selectors.length
      ++ " attempts. Last error: " ++ optToStr le), tried)

/-- The click retry loop (source lines 300-365): probe each candidate; a
driver error, an empty handle list, an invisible first handle or a click
error make this candidate fail (recording `last_error`) and the loop
continue; otherwise the first handle is clicked and the loop stops. -/
def click_attempts (probe : String → ClickOutcome) (target : String) :
    List String → Option String → (Option StepResult × Option String) × List String
  | [], le => ((none, le), [])
  | sel :: rest, le =>
    match probe sel with
    | .err e =>
      let r := click_attempts probe target rest (some (pyTake e 100))
      (r.1, sel :: r.2)
    | .found [] =>
      let r := click_attempts probe target rest (some "Selector matched but no elements found")
      (r.1, sel :: r.2)
    | .found (e0 :: _) =>
      if !e0.visible then
        let r := click_attempts probe target rest (some "Element found but not visible")
        (r.1, sel :: r.2)
      else
        match e0.clickErr with
        | some ce =>
          let r := click_attempts probe target rest (some (pyTake ce 100))
          (r.1, sel :: r.2)
        | none =>
          ((some { status := "success",
                   message := "Clicked '" ++ target ++ "' successfully",
                   selector_used := some sel }, le), [sel])

/-- `execute_click_action(page, selectors, target, step_number)`
(source lines 275-396), paired with the probed-candidate trace: the
candidate list is deduplicated (keeping first occurrences) before the
loop.  The ambiguous-generic warning and the debug capture only log. -/
def execute_click_action (page : Page) (selectors0 : List String) (target : String)
    (step_number : Nat) : Except String StepResult × List String :=
  let selectors1 := if selectors0.isEmpty then generate_fallback_selectors target else selectors0
  let selectors := dedupFirst selectors1
  match click_attempts page.clickProbe target selectors none with
  | ((some r, _), tried) => (.ok r, tried)
  | ((none, le), tried) =>
    (.error ("Failed to click '" ++ target ++ "' after " ++ toString selectors.length
      ++ " attempts. Last error: " ++ optToStr le), tried)

/-! ## Step dispatch and orchestrator (source lines 73-225 and 994-1122) -/

/-- One step dictionary as `execute_step` reads it (each `step.get` default
is folded into the field default). -/
structure StepDict where
  step_number : Option Nat := none
  action : String := ""
  target : String := ""
  value : String := ""
  selectors : List String := []
  description : String := ""
  expected_result : String := ""
  screenshot : Bool := false
deriving Repr

/-- The failure dictionary `execute_step` returns when a branch raises
(source lines 207-225), error screenshot included. -/
def stepFailure (step_number : Nat) (ts msg : String) : StepResult :=
  { status := "failed",
    message := msg,
    screenshot := some ("screenshots/error_step_" ++ toString step_number ++ "_" ++ ts ++ ".png"),
    error := some msg }

/-- On success, a screenshot is added when the step requested one
(source lines 198-202; the `screenshot` action keeps its own). -/
def addShot (step : StepDict) (step_number : Nat) (r : StepResult) : StepResult :=
  if step.screenshot then
    { r with screenshot := some ("screenshots/step_" ++ toString step_number ++ "_success.png") }
  else r

/-- `execute_step(page, step, step_number)` (source lines 73-225), paired
with the trace of `page.goto` calls issued.  The stabilization waits after
click/wait/verify only delay and are omitted. -/
def execute_step (page : Page) (step : StepDict) (step_number : Nat) :
    StepResult × List String :=
  let action := pyLower step.action
  let target := step.target
  let value := step.value
  let selectors := step.selectors
  if action == "navigate" then
    if value.isEmpty || value == "application URL" then
      (stepFailure step_number page.timestamp
        ("Invalid URL: '" ++ value ++ "'. Expected actual URL value."), [])
    else
      match page.goto value with
      | .ok _ =>
        (addShot step step_number
          { status := "success", message := "Successfully navigated to " ++ value }, [value])
      | .error e => (stepFailure step_number page.timestamp e, [value])
  else if action == "fill" then
    if value.isEmpty then
      (stepFailure step_number page.timestamp
        ("No value provided for fill action on '" ++ target ++ "'"), [])
    else
      match (execute_fill_action page selectors value target step_number).1 with
      | .ok r => (addShot step step_number r, [])
      | .error e => (stepFailure step_number page.timestamp e, [])
  else if action == "click" then
    match (execute_click_action page selectors target step_number).1 with
    | .ok r => (addShot step step_number r, [])
    | .error e => (stepFailure step_number page.timestamp e, [])
  else if action == "wait" then
    let wait_time := if !value.isEmpty && pyIsDigit value then natOfDigits value.data else 2000
    (addShot step step_number
      { status := "success", message := "Waited for " ++ toString wait_time ++ "ms" }, [])
  else if action == "verify" then
    match execute_verify_action page selectors target step_number with
    | .ok r => (addShot step step_number r, [])
    | .error e => (stepFailure step_number page.timestamp e, [])
  else if action == "screenshot" then
    ({ status := "success", message := "Screenshot captured",
       screenshot := some ("screenshots/step_" ++ toString step_number ++ "_screenshot.png") }, [])
  else
    (stepFailure step_number page.timestamp ("Unknown action: " ++ action), [])

/-- The record `run_browser_automation` builds per executed step. -/
structure ReproductionStep where
  step_number : Nat
  description : String
  action : String
  target : String
  expected_result : String
  status : String
  actual_result : String
  error : Option String
deriving DecidableEq, Repr

/-- The orchestrator's loop over the plan (source lines 1078-1115): every
step is executed in order and yields exactly one record; `k` counts the
results already produced (the default step number is `len(results)+1`). -/
def runStepsAux (page : Page) : List StepDict → Nat → List ReproductionStep
  | [], _ => []
  | s :: rest, k =>
    let n := s.step_number.getD (k + 1)
    let r := (execute_step page s n).1
    { step_number := n,
      description := s.description,
      action := s.action,
      target := s.target,
      expected_result := s.expected_result,
      status := r.status,
      actual_result := r.message,
      error := r.error } :: runStepsAux page rest (k + 1)

/-- `run_browser_automation(steps)` (source lines 994-1122) against a
fixed driver oracle: browser setup only configures the session and the
per-step exception handler is unreachable in the model (`execute_step`
already catches its own failures). -/
def run_browser_automation (page : Page) (steps : List StepDict) : List ReproductionStep :=
  runStepsAux page steps 0

/-! ## Helper lemmas -/

theorem ws_not_digit {c : Char} (hw : c.isWhitespace = true) : c.isDigit = false := by
  have h : ((c = ' ' ∨ c = '\t') ∨ c = '\r') ∨ c = '\n' := by
    simpa [Char.isWhitespace] using hw
  rcases h with ((rfl | rfl) | rfl) | rfl <;> decide

theorem firstRunAux_dropWhile_ws (l : List Char) :
    firstRunAux (l.dropWhile Char.isWhitespace) = firstRunAux l := by
  induction l with
  | nil => rfl
  | cons c cs ih =>
    by_cases hw : c.isWhitespace
    · simp [List.dropWhile, hw, firstRunAux, ws_not_digit hw, ih]
    · simp [List.dropWhile, hw]

theorem takeWhile_digit_append {w : List Char} (hw : ∀ c ∈ w, c.isDigit = false) :
    ∀ m : List Char, (m ++ w).takeWhile Char.isDigit = m.takeWhile Char.isDigit := by
  intro m
  induction m with
  | nil =>
    simp only [List.nil_append, List.takeWhile_nil]
    cases w with
    | nil => rfl
    | cons c cs => simp [List.takeWhile, hw c (List.mem_cons_self c cs)]
  | cons c cs ih =>
    by_cases hd : c.isDigit <;> simp [List.takeWhile, hd, ih]

theorem firstRunAux_append_no_digit {w : List Char} (hw : ∀ c ∈ w, c.isDigit = false) :
    ∀ m : List Char, firstRunAux (m ++ w) = firstRunAux m := by
  intro m
  induction m with
  | nil =>
    induction w with
    | nil => rfl
    | cons c cs ih =>
      simp only [List.nil_append] at ih ⊢
      simp [firstRunAux, hw c (List.mem_cons_self c cs),
        ih (fun d hd => hw d (List.mem_cons_of_mem c hd))]
  | cons c cs ih =>
    by_cases hd : c.isDigit
    · simp [firstRunAux, hd, takeWhile_digit_append hw]
    · simp [firstRunAux, hd, ih]

theorem firstRunAux_pyStrip_data (l : List Char) :
    firstRunAux (((l.dropWhile Char.isWhitespace).reverse.dropWhile
      Char.isWhitespace).reverse) = firstRunAux l := by
  have h1 : firstRunAux (l.dropWhile Char.isWhitespace) = firstRunAux l :=
    firstRunAux_dropWhile_ws l
  set l1 := l.dropWhile Char.isWhitespace with hl1
  have hsplit : l1 = (l1.reverse.dropWhile Char.isWhitespace).reverse
      ++ (l1.reverse.takeWhile Char.isWhitespace).reverse := by
    calc l1 = l1.reverse.reverse := (List.reverse_reverse l1).symm
    _ = (l1.reverse.takeWhile Char.isWhitespace ++ l1.reverse.dropWhile Char.isWhitespace).reverse := by
          rw [List.takeWhile_append_dropWhile]
    _ = (l1.reverse.dropWhile Char.isWhitespace).reverse
          ++ (l1.reverse.takeWhile Char.isWhitespace).reverse := by
          rw [List.reverse_append]
  have hwsp : ∀ c ∈ (l1.reverse.takeWhile Char.isWhitespace).reverse, c.isDigit = false := by
    intro c hc
    rw [List.mem_reverse] at hc
    exact ws_not_digit (List.mem_takeWhile_imp hc)
  calc firstRunAux ((l1.reverse.dropWhile Char.isWhitespace).reverse)
      = firstRunAux ((l1.reverse.dropWhile Char.isWhitespace).reverse
          ++ (l1.reverse.takeWhile Char.isWhitespace).reverse) :=
        (firstRunAux_append_no_digit hwsp _).symm
    _ = firstRunAux l1 := by rw [← hsplit]
    _ = firstRunAux l := h1

/-- Stripping leading/trailing whitespace does not change the first
decimal-digit run. -/
theorem firstDigitRun_pyStrip (s : String) : firstDigitRun (pyStrip s) = firstDigitRun s := by
  unfold firstDigitRun pyStrip
  rw [firstRunAux_pyStrip_data]

/-! ## Result characterization of the verify strategies -/

theorem strictElemLoop_some {ctx loc ps : String} {l : List (Dom × List Dom)} {r : StepResult}
    (h : strictElemLoop ctx loc ps l = some r) :
    r.status = "success" ∧ r.selector_used = some ps ∧ r.numeric_value = none ∧
      r.location_verified = some true := by
  induction l with
  | nil => simp [strictElemLoop] at h
  | cons p rest ih =>
    obtain ⟨n, anc⟩ := p
    simp only [strictElemLoop] at h
    split at h
    · exact ih h
    · split at h
      · split at h
        · exact ih h
        · cases h
          exact ⟨rfl, rfl, rfl, rfl⟩
      · exact ih h

theorem strictPatLoop_some {ctx loc : String} {pats : List (String × List (Dom × List Dom))}
    {r : StepResult} (h : strictPatLoop ctx loc pats = some r) :
    r.status = "success" ∧ r.selector_used.isSome = true ∧ r.numeric_value = none ∧
      r.location_verified = some true := by
  induction pats with
  | nil => simp [strictPatLoop] at h
  | cons p rest ih =>
    obtain ⟨ps, ms⟩ := p
    simp only [strictPatLoop] at h
    split at h
    next heq =>
      cases h
      obtain ⟨h1, h2, h3, h4⟩ := strictElemLoop_some heq
      exact ⟨h1, by simp [h2], h3, h4⟩
    next => exact ih h

theorem strictVerify_spec (dom : Dom) (ctx loc : String) :
    ((strictVerify dom ctx loc).status = "success" ∧
      (strictVerify dom ctx loc).selector_used.isSome = true ∧
      (strictVerify dom ctx loc).numeric_value = none ∧
      (strictVerify dom ctx loc).location_verified = some true) ∨
    ((strictVerify dom ctx loc).status = "failed" ∧
      (strictVerify dom ctx loc).selector_used = some "location_validation" ∧
      (strictVerify dom ctx loc).numeric_value = none ∧
      (strictVerify dom ctx loc).location_verified = some false) := by
  unfold strictVerify
  split
  next heq => exact Or.inl (strictPatLoop_some heq)
  next => exact Or.inr ⟨rfl, rfl, rfl, rfl⟩

theorem s1Loop_some {page : Page} {ctx : Option String} {target : String}
    {l : List String} {le le' : Option String} {r : StepResult}
    (h : s1Loop page ctx target l le = (some r, le')) :
    r.status = "success" ∧ r.selector_used.isSome = true ∧ r.location_verified = none ∧
      (∀ t, r.text_content = some t → r.numeric_value = firstDigitRun t) := by
  induction l generalizing le with
  | nil => simp [s1Loop] at h
  | cons sel rest ih =>
    simp only [s1Loop] at h
    split at h
    · exact ih h
    · exact ih h
    · split at h
      · split at h
        · split at h
          · exact ih h
          · cases h
            refine ⟨rfl, rfl, rfl, ?_⟩
            intro t ht
            cases ht
            rfl
        · cases h
          exact ⟨rfl, rfl, rfl, fun t ht => by cases ht⟩
      · exact ih h

theorem s2ElemLoop_some {pat ctx : String} {loc : Option String} {target : String}
    {l : List Dom} {r : StepResult} (h : s2ElemLoop pat ctx loc target l = some r) :
    r.status = "success" ∧ r.selector_used.isSome = true ∧ r.location_verified = none ∧
      (∀ t, r.text_content = some t → r.numeric_value = firstDigitRun t) := by
  induction l with
  | nil => simp [s2ElemLoop] at h
  | cons e rest ih =>
    simp only [s2ElemLoop] at h
    split at h
    · exact ih h
    · split at h
      · exact ih h
      · split at h
        · cases h
          refine ⟨rfl, rfl, rfl, ?_⟩
          intro t ht
          cases ht
          rfl
        · exact ih h

theorem s2ContLoop_some {pat ctx : String} {loc : Option String} {target : String}
    {l : List (Dom × List Dom)} {r : StepResult}
    (h : s2ContLoop pat ctx loc target l = some r) :
    r.status = "success" ∧ r.selector_used.isSome = true ∧ r.location_verified = none ∧
      (∀ t, r.text_content = some t → r.numeric_value = firstDigitRun t) := by
  induction l with
  | nil => simp [s2ContLoop] at h
  | cons p rest ih =>
    obtain ⟨cont, anc⟩ := p
    simp only [s2ContLoop] at h
    split at h
    · exact ih h
    · split at h
      · exact ih h
      · split at h
        · exact ih h
        · split at h
          next heq =>
            cases h
            exact s2ElemLoop_some heq
          next => exact ih h

theorem s2PatLoop_some {ctx : String} {loc : Option String} {target : String}
    {pats : List (String × List (Dom × List Dom))} {r : StepResult}
    (h : s2PatLoop ctx loc target pats = some r) :
    r.status = "success" ∧ r.selector_used.isSome = true ∧ r.location_verified = none ∧
      (∀ t, r.text_content = some t → r.numeric_value = firstDigitRun t) := by
  induction pats with
  | nil => simp [s2PatLoop] at h
  | cons p rest ih =>
    obtain ⟨ps, ms⟩ := p
    simp only [s2PatLoop] at h
    split at h
    next heq =>
      cases h
      exact s2ContLoop_some heq
    next => exact ih h

theorem s4Loop_some {target : String} {l : List Dom} {r : StepResult}
    (h : s4Loop target l = some r) :
    r.status = "success" ∧ r.selector_used = none ∧ r.location_verified = none ∧
      (∀ t, r.text_content = some t → r.numeric_value = firstDigitRun t) := by
  induction l with
  | nil => simp [s4Loop] at h
  | cons e rest ih =>
    simp only [s4Loop] at h
    split at h
    · exact ih h
    · split at h
      · exact ih h
      · split at h
        · cases h
          refine ⟨rfl, rfl, rfl, ?_⟩
          intro t ht
          cases ht
          exact (firstDigitRun_pyStrip _).symm
        · exact ih h

theorem s5Partial_some {dom : Dom} {target : String} {n : Nat} {ts : String} {r : StepResult}
    (h : s5Partial dom target n ts = some r) :
    r.status = "partial" ∧ r.selector_used = none ∧ r.numeric_value = none := by
  simp only [s5Partial] at h
  split at h
  · split at h
    · cases h
      exact ⟨rfl, rfl, rfl⟩
    · cases h
  · cases h

/-! ## Probe predicates and loop lemmas for the retry loops -/

/-- A fill candidate's probe fully succeeds: no driver error, and the
read-back matches unless the target is a password (read-back skipped). -/
def fillProbeOk (probe : String → String → FillOutcome) (value : String) (isPw : Bool)
    (s : String) : Bool :=
  match probe s value with
  | .err _ => false
  | .ok rb => isPw || rb == value

/-- A click candidate's probe fully succeeds: no driver error, a nonempty
handle list whose first handle is visible and clicks without error. -/
def clickProbeOk (probe : String → ClickOutcome) (s : String) : Bool :=
  match probe s with
  | .err _ => false
  | .found [] => false
  | .found (e0 :: _) => e0.visible && e0.clickErr.isNone

theorem fill_attempts_some {probe : String → String → FillOutcome} {value target : String}
    {isPw : Bool} {l : List String} {le : Option String} {r : StepResult}
    (h : (fill_attempts probe value target isPw l le).1.1 = some r) :
    r.status = "success" ∧ r.selector_used.isSome = true := by
  induction l generalizing le with
  | nil => simp [fill_attempts] at h
  | cons sel rest ih =>
    simp only [fill_attempts] at h
    split at h
    · exact ih h
    · split at h
      · exact ih h
      · cases h
        exact ⟨rfl, rfl⟩

theorem fill_attempts_none {probe : String → String → FillOutcome} {value target : String}
    {isPw : Bool} {l : List String} {le : Option String}
    (h : (fill_attempts probe value target isPw l le).1.1 = none) :
    ∀ s ∈ l, fillProbeOk probe value isPw s = false := by
  induction l generalizing le with
  | nil => intro s hs; cases hs
  | cons sel rest ih =>
    intro s hs
    simp only [fill_attempts] at h
    split at h
    next e heq =>
      rcases List.mem_cons.mp hs with rfl | hr
      · simp [fillProbeOk, heq]
      · exact ih h s hr
    next rb heq =>
      split at h
      next hcond =>
        rcases List.mem_cons.mp hs with rfl | hr
        · simp only [Bool.and_eq_true, Bool.not_eq_true', bne_iff_ne] at hcond
          simp [fillProbeOk, heq, hcond.1, hcond.2]
        · exact ih h s hr
      next => cases h

theorem fill_attempts_skip_failures {probe : String → String → FillOutcome}
    {value target : String} {isPw : Bool} :
    ∀ {P : List String} (M : List String) (le : Option String),
      (∀ s ∈ P, fillProbeOk probe value isPw s = false) →
      ∃ le', fill_attempts probe value target isPw (P ++ M) le =
        ((fill_attempts probe value target isPw M le').1,
          P ++ (fill_attempts probe value target isPw M le').2) := by
  intro P
  induction P with
  | nil => intro M le _; exact ⟨le, by simp⟩
  | cons s P' ih =>
    intro M le hfail
    have hs : fillProbeOk probe value isPw s = false := hfail s (List.mem_cons_self _ _)
    have hrest : ∀ x ∈ P', fillProbeOk probe value isPw x = false :=
      fun x hx => hfail x (List.mem_cons_of_mem _ hx)
    simp only [List.cons_append, fill_attempts]
    unfold fillProbeOk at hs
    split at hs
    next e heq =>
      obtain ⟨le', hle'⟩ := ih M (some (pyTake e 100)) hrest
      refine ⟨le', ?_⟩
      rw [show P'.append M = P' ++ M from rfl, hle']
    next rb heq =>
      simp only [Bool.or_eq_false_iff, beq_eq_false_iff_ne] at hs
      have hcond : (!isPw && rb != value) = true := by
        simp [hs.1, bne_iff_ne, hs.2]
      rw [if_pos hcond]
      obtain ⟨le', hle'⟩ := ih M (some "Value mismatch") hrest
      refine ⟨le', ?_⟩
      rw [show P'.append M = P' ++ M from rfl, hle']

theorem fill_attempts_head_ok {probe : String → String → FillOutcome}
    {value target : String} {isPw : Bool} {sel : String} (rest : List String)
    (le : Option String) (h : fillProbeOk probe value isPw sel = true) :
    fill_attempts probe value target isPw (sel :: rest) le =
      ((some { status := "success", message := "Filled '" ++ target ++ "' successfully",
               selector_used := some sel }, le), [sel]) := by
  unfold fillProbeOk at h
  simp only [fill_attempts]
  split at h
  next => cases h
  next rb heq =>
    have hcond : (!isPw && rb != value) = false := by
      rcases Bool.or_eq_true_iff.mp h with hp | hv
      · simp [hp]
      · simp [bne, hv]
    rw [hcond]
    simp

theorem click_attempts_some {probe : String → ClickOutcome} {target : String}
    {l : List String} {le : Option String} {r : StepResult}
    (h : (click_attempts probe target l le).1.1 = some r) :
    r.status = "success" ∧ r.selector_used.isSome = true := by
  induction l generalizing le with
  | nil => simp [click_attempts] at h
  | cons sel rest ih =>
    simp only [click_attempts] at h
    split at h
    · exact ih h
    · exact ih h
    · split at h
      · exact ih h
      · split at h
        · exact ih h
        · cases h
          exact ⟨rfl, rfl⟩

theorem click_attempts_skip_failures {probe : String → ClickOutcome} {target : String} :
    ∀ {P : List String} (M : List String) (le : Option String),
      (∀ s ∈ P, clickProbeOk probe s = false) →
      ∃ le', click_attempts probe target (P ++ M) le =
        ((click_attempts probe target M le').1,
          P ++ (click_attempts probe target M le').2) := by
  intro P
  induction P with
  | nil => intro M le _; exact ⟨le, by simp⟩
  | cons s P' ih =>
    intro M le hfail
    have hs : clickProbeOk probe s = false := hfail s (List.mem_cons_self _ _)
    have hrest : ∀ x ∈ P', clickProbeOk probe x = false :=
      fun x hx => hfail x (List.mem_cons_of_mem _ hx)
    simp only [List.cons_append, click_attempts]
    unfold clickProbeOk at hs
    split at hs
    next e heq =>
      obtain ⟨le', hle'⟩ := ih M (some (pyTake e 100)) hrest
      refine ⟨le', ?_⟩
      rw [show P'.append M = P' ++ M from rfl, hle']
    next heq =>
      obtain ⟨le', hle'⟩ := ih M (some "Selector matched but no elements found") hrest
      refine ⟨le', ?_⟩
      rw [show P'.append M = P' ++ M from rfl, hle']
    next e0 es heq =>
      by_cases hv : e0.visible
      · have hce : e0.clickErr ≠ none := by
          intro hn
          rw [hv, hn] at hs
          simp at hs
        rw [if_neg (by simp [hv])]
        obtain ⟨ce, hcee⟩ := Option.ne_none_iff_exists'.mp hce
        obtain ⟨le', hle'⟩ := ih M (some (pyTake ce 100)) hrest
        refine ⟨le', ?_⟩
        rw [hcee]
        dsimp only
        rw [show P'.append M = P' ++ M from rfl, hle']
      · rw [if_pos (by simp [hv])]
        obtain ⟨le', hle'⟩ := ih M (some "Element found but not visible") hrest
        refine ⟨le', ?_⟩
        rw [show P'.append M = P' ++ M from rfl, hle']

theorem click_attempts_head_ok {probe : String → ClickOutcome} {target sel : String}
    (rest : List String) (le : Option String) (h : clickProbeOk probe sel = true) :
    click_attempts probe target (sel :: rest) le =
      ((some { status := "success", message := "Clicked '" ++ target ++ "' successfully",
               selector_used := some sel }, le), [sel]) := by
  unfold clickProbeOk at h
  simp only [click_attempts]
  split at h
  next => cases h
  next => cases h
  next e0 es heq =>
    simp only [Bool.and_eq_true, Option.isNone_iff_eq_none] at h
    rw [if_neg (by simp [h.1]), h.2]

theorem dedupFirstAux_congr {seen seen' : List String}
    (hmem : ∀ a : String, a ∈ seen ↔ a ∈ seen') :
    ∀ l : List String, dedupFirstAux seen l = dedupFirstAux seen' l := by
  intro l
  induction l generalizing seen seen' with
  | nil => rfl
  | cons s rest ih =>
    simp only [dedupFirstAux]
    by_cases hs : s ∈ seen
    · rw [if_pos hs, if_pos ((hmem s).mp hs)]
      exact ih hmem
    · rw [if_neg hs, if_neg (fun hc => hs ((hmem s).mpr hc))]
      refine congrArg (s :: ·) (ih ?_)
      intro a
      simp only [List.mem_cons]
      exact or_congr Iff.rfl (hmem a)

theorem dedupFirstAux_append (seen : List String) (P M : List String) :
    dedupFirstAux seen (P ++ M) = dedupFirstAux seen P ++ dedupFirstAux (P ++ seen) M := by
  induction P generalizing seen with
  | nil => simp [dedupFirstAux]
  | cons s P' ih =>
    simp only [List.cons_append, dedupFirstAux]
    by_cases hs : s ∈ seen
    · rw [if_pos hs, if_pos hs, show P'.append M = P' ++ M from rfl, ih seen]
      refine congrArg _ (dedupFirstAux_congr ?_ M)
      intro a
      simp only [List.mem_append, List.mem_cons]
      constructor
      · tauto
      · rintro (rfl | h | h) <;> tauto
    · rw [if_neg hs, if_neg hs, show P'.append M = P' ++ M from rfl, ih (s :: seen),
        List.cons_append]
      refine congrArg _ (congrArg _ (dedupFirstAux_congr ?_ M))
      intro a
      simp only [List.mem_append, List.mem_cons]
      tauto

theorem verify_ok_spec {page : Page} {sels : List String} {target : String} {n : Nat}
    {r : StepResult} (h : execute_verify_action page sels target n = .ok r) :
    (r.selector_used.isSome = true →
      r.status = "success" ∨
        (r.status = "failed" ∧ r.selector_used = some "location_validation")) ∧
    (r.status = "success" → ∀ t, r.text_content = some t →
      r.numeric_value = firstDigitRun t ∨
        (r.location_verified = some true ∧ r.numeric_value = none)) := by
  simp only [execute_verify_action] at h
  split at h
  · cases h
    rcases strictVerify_spec page.dom ((extractQuoted target).getD "")
        ((extractLocation (pyLower target)).getD "") with
      ⟨h1, _, h3, h4⟩ | ⟨h1, h2, _, _⟩
    · exact ⟨fun _ => Or.inl h1, fun _ t _ => Or.inr ⟨h4, h3⟩⟩
    · refine ⟨fun _ => Or.inr ⟨h1, h2⟩, fun hs => ?_⟩
      rw [hs] at h1
      exact absurd h1 (by decide)
  · split at h
    next r1 le1 heq1 =>
      cases h
      obtain ⟨h1, h2, _, h4⟩ := s1Loop_some heq1
      exact ⟨fun _ => Or.inl h1, fun _ t ht => Or.inl (h4 t ht)⟩
    next le1 heq1 =>
      split at h
      next r2 heq2 =>
        cases h
        split at heq2
        · obtain ⟨h1, h2, _, h4⟩ := s2PatLoop_some heq2
          exact ⟨fun _ => Or.inl h1, fun _ t ht => Or.inl (h4 t ht)⟩
        · cases heq2
      next heq2 =>
        split at h
        next r3 heq3 =>
          cases h
          obtain ⟨h1, h2, _, h4⟩ := s4Loop_some heq3
          exact ⟨fun _ => Or.inl h1, fun _ t ht => Or.inl (h4 t ht)⟩
        next heq3 =>
          split at h
          next r4 heq4 =>
            cases h
            obtain ⟨h1, h2, h3⟩ := s5Partial_some heq4
            refine ⟨fun hsel => ?_, fun hs => ?_⟩
            · rw [h2] at hsel
              cases hsel
            · rw [hs] at h1
              exact absurd h1 (by decide)
          next => cases h

theorem addShot_status (step : StepDict) (n : Nat) (r : StepResult) :
    (addShot step n r).status = r.status := by
  unfold addShot; split <;> rfl

theorem addShot_selector_used (step : StepDict) (n : Nat) (r : StepResult) :
    (addShot step n r).selector_used = r.selector_used := by
  unfold addShot; split <;> rfl

theorem addShot_text_content (step : StepDict) (n : Nat) (r : StepResult) :
    (addShot step n r).text_content = r.text_content := by
  unfold addShot; split <;> rfl

theorem addShot_numeric_value (step : StepDict) (n : Nat) (r : StepResult) :
    (addShot step n r).numeric_value = r.numeric_value := by
  unfold addShot; split <;> rfl

theorem addShot_location_verified (step : StepDict) (n : Nat) (r : StepResult) :
    (addShot step n r).location_verified = r.location_verified := by
  unfold addShot; split <;> rfl

theorem execute_fill_ok {page : Page} {sels : List String} {value target : String} {n : Nat}
    {r : StepResult} (h : (execute_fill_action page sels value target n).1 = .ok r) :
    r.status = "success" ∧ r.selector_used.isSome = true := by
  simp only [execute_fill_action] at h
  split at h
  next r' le' tried heq =>
    cases h
    exact fill_attempts_some (by rw [heq])
  next => simp at h

theorem execute_click_ok {page : Page} {sels : List String} {target : String} {n : Nat}
    {r : StepResult} (h : (execute_click_action page sels target n).1 = .ok r) :
    r.status = "success" ∧ r.selector_used.isSome = true := by
  simp only [execute_click_action] at h
  split at h
  next r' le' tried heq =>
    cases h
    exact click_attempts_some (by rw [heq])
  next => simp at h

theorem execute_step_selector_spec (page : Page) (step : StepDict) (n : Nat) :
    (execute_step page step n).1.selector_used.isSome = true →
      (execute_step page step n).1.status = "success" ∨
        ((execute_step page step n).1.status = "failed" ∧
          (execute_step page step n).1.selector_used = some "location_validation") := by
  simp only [execute_step]
  split
  · split
    · intro h; cases h
    · split
      · rw [addShot_selector_used]
        intro h; cases h
      · intro h; cases h
  · split
    · split
      · intro h; cases h
      · split
        next r heq =>
          rw [addShot_selector_used, addShot_status]
          intro _
          exact Or.inl (execute_fill_ok heq).1
        next => intro h; cases h
    · split
      · split
        next r heq =>
          rw [addShot_selector_used, addShot_status]
          intro _
          exact Or.inl (execute_click_ok heq).1
        next => intro h; cases h
      · split
        · rw [addShot_selector_used]
          intro h; cases h
        · split
          · split
            next r heq =>
              rw [addShot_selector_used, addShot_status]
              intro hsel
              exact (verify_ok_spec heq).1 hsel
            next => intro h; cases h
          · split
            · intro h; cases h
            · intro h; cases h

theorem string_isEmpty_false {s : String} (h : ¬s = "") : s.isEmpty = false := by
  rw [Bool.eq_false_iff]
  intro hc
  exact h ((String.isEmpty_iff s).mp hc)

theorem hasSubAux_of_isPrefixOf {needle hay : List Char} (h : needle.isPrefixOf hay = true) :
    hasSubAux needle hay = true := by
  cases hay with
  | nil =>
    cases needle with
    | nil => rfl
    | cons c cs => simp [List.isPrefixOf] at h
  | cons c cs => simp [hasSubAux, h]

/-- A string starting with `pre` contains `pre`. -/
theorem hasSub_of_pref {s pre : String} (h : pre.data.isPrefixOf s.data = true) :
    hasSub s pre = true :=
  hasSubAux_of_isPrefixOf h

theorem strictElemLoop_none {ctx loc ps : String} {l : List (Dom × List Dom)}
    (h : ∀ p ∈ l, p.1.data.visible = true → hasSub (textContent p.1) ctx = true →
      isInWrongTab p.1 p.2 = true) :
    strictElemLoop ctx loc ps l = none := by
  induction l with
  | nil => rfl
  | cons p rest ih =>
    obtain ⟨n, anc⟩ := p
    have hrest := fun q hq => h q (List.mem_cons_of_mem _ hq)
    simp only [strictElemLoop]
    split
    next hv => exact ih hrest
    next hv =>
      split
      next hcond =>
        split
        next hw => exact ih hrest
        next hw =>
          exfalso
          have hcc : hasSub (textContent n) ctx = true := by
            simp only [Bool.and_eq_true] at hcond
            exact hcond.2
          exact hw (h (n, anc) (List.mem_cons_self _ _) (by simpa using hv) hcc)
      next hcond => exact ih hrest

theorem strictPatterns_take4_spec {dom : Dom} {ctx : String} {ps : String}
    {ms : List (Dom × List Dom)} (h : (ps, ms) ∈ (strictPatterns dom ctx).take 4) :
    ∀ p ∈ ms, p ∈ allNodes dom ∧
      (inActiveTabPaneDiv p.2 = true ∨ inVisibleTabpanelDiv p.2 = true) := by
  have htake4 : ∀ (a b c d e f : String × List (Dom × List Dom)),
      List.take 4 [a, b, c, d, e, f] = [a, b, c, d] := fun _ _ _ _ _ _ => rfl
  rw [strictPatterns, htake4] at h
  simp only [List.mem_cons, List.not_mem_nil, or_false, Prod.mk.injEq] at h
  rcases h with ⟨_, rfl⟩ | ⟨_, rfl⟩ | ⟨_, rfl⟩ | ⟨_, rfl⟩ <;>
    intro p hp <;>
    obtain ⟨hmem, hpred⟩ := List.mem_filter.mp hp <;>
    simp only [Bool.and_eq_true] at hpred
  · exact ⟨hmem, Or.inl hpred.2⟩
  · exact ⟨hmem, Or.inl hpred.2⟩
  · exact ⟨hmem, Or.inr hpred.2⟩
  · exact ⟨hmem, Or.inr hpred.2⟩

theorem strictPatLoop_none_of_all {ctx loc : String} :
    ∀ {pats : List (String × List (Dom × List Dom))},
      (∀ pr ∈ pats, strictElemLoop ctx loc pr.1 pr.2 = none) →
      strictPatLoop ctx loc pats = none := by
  intro pats
  induction pats with
  | nil => intro _; rfl
  | cons pr rest ih =>
    intro hall
    obtain ⟨ps, ms⟩ := pr
    simp only [strictPatLoop]
    rw [hall (ps, ms) (List.mem_cons_self _ _)]
    exact ih (fun q hq => hall q (List.mem_cons_of_mem _ hq))

theorem strictPatLoop_none {ctx loc : String} {dom : Dom}
    (h : ∀ p ∈ allNodes dom,
      (inActiveTabPaneDiv p.2 = true ∨ inVisibleTabpanelDiv p.2 = true) →
      p.1.data.visible = true →
      hasSub (textContent p.1) ctx = true → isInWrongTab p.1 p.2 = true) :
    strictPatLoop ctx loc ((strictPatterns dom ctx).take 4) = none := by
  apply strictPatLoop_none_of_all
  intro pr hpr
  obtain ⟨ps, ms⟩ := pr
  refine strictElemLoop_none (fun p hp hv hc => ?_)
  obtain ⟨hmem, hcont⟩ := strictPatterns_take4_spec hpr p hp
  exact h p hmem hcont hv hc

/-- C3 (amended): for a verify step whose target carries both a quoted
anchor and an `in the X tab/section/area` location phrase, if every visible
element lying inside an active `tab-pane` div (or a non-hidden
`role=tabpanel` div) whose text holds the anchor sits under an inactive
nearest `.tab-pane` — in particular whenever the anchor occurs only inside
an inactive tab pane that no active pane wraps, as on a plain
`body > div.tab-pane > h5` document — then the executor returns the
definitive location-mismatch failure: status `failed`,
`location_verified = false`, a message containing `LOCATION MISMATCH` — and
never `success`.  (With an inactive pane nested inside an active one the
executor instead reports success: see the counterexample.) -/
theorem c3_location_mismatch (page : Page) (sels : List String) (target : String) (n : Nat)
    (ctx loc : String)
    (hq : extractQuoted target = some ctx) (hne : ¬ctx = "")
    (hloc : extractLocation (pyLower target) = some loc)
    (hdom : ∀ p ∈ allNodes page.dom,
      (inActiveTabPaneDiv p.2 = true ∨ inVisibleTabpanelDiv p.2 = true) →
      p.1.data.visible = true →
      hasSub (textContent p.1) ctx = true → isInWrongTab p.1 p.2 = true) :
    execute_verify_action page sels target n = .ok (strictVerify page.dom ctx loc) ∧
    (strictVerify page.dom ctx loc).status = "failed" ∧
    ¬(strictVerify page.dom ctx loc).status = "success" ∧
    (strictVerify page.dom ctx loc).location_verified = some false ∧
    hasSub (strictVerify page.dom ctx loc).message "LOCATION MISMATCH" = true := by
  have hdisp : execute_verify_action page sels target n = .ok (strictVerify page.dom ctx loc) := by
    simp only [execute_verify_action, hq, hloc, truthy, Option.isSome_some, Bool.and_true,
      Option.getD_some, string_isEmpty_false hne, Bool.not_false, if_pos]
  have hnone := @strictPatLoop_none ctx loc page.dom hdom
  have hvmis : strictVerify page.dom ctx loc =
      { status := "failed",
        message := "LOCATION MISMATCH: '" ++ ctx ++ "' NOT found in '" ++ loc ++ "' tab "
          ++ (if 0 < ((otherLocMatches page.dom ctx).take 5).countP (fun m => m.data.visible)
              then "(found in "
                ++ toString (((otherLocMatches page.dom ctx).take 5).countP
                    (fun m => m.data.visible)) ++ " other location(s))"
              else "(not found anywhere)"),
        selector_used := some "location_validation",
        text_content := some ("Expected in '" ++ loc ++ "' but not present"),
        context := some ctx,
        location := some loc,
        location_verified := some false,
        location_mismatch := some true } := by
    simp only [strictVerify, hnone]
  refine ⟨hdisp, ?_, ?_, ?_, ?_⟩
  · rw [hvmis]
  · intro hc
    rw [hvmis] at hc
    have hfs : ("failed" : String) = "success" := hc
    exact absurd (congrArg String.data hfs) (by decide)
  · rw [hvmis]
  · rw [hvmis]
    apply hasSub_of_pref
    rw [List.isPrefixOf_iff_prefix]
    have h1 : "LOCATION MISMATCH".data <+: "LOCATION MISMATCH: '".data := by decide
    refine h1.trans ?_
    simp only [String.data_append, List.append_assoc]
    exact List.prefix_append _ _

/-! ## Concrete fixtures for witnesses and counterexamples -/

/-- A page whose driver fails every probe (used to exercise failure paths). -/
def failPage : Page :=
  { dom := Dom.node { tag := "body" } [],
    goto := fun _ => .error "net::ERR_NAME_NOT_RESOLVED at http://unreachable.invalid/",
    wait_for_selector := fun _ => .error "Timeout 2000ms exceeded",
    fillProbe := fun _ _ => .err "Timeout 3000ms exceeded",
    clickProbe := fun _ => .err "Timeout 5000ms exceeded",
    timestamp := "20250101_000000" }

/-- The claim's canonical document: a body whose anchor `The Idea Jar`
sits only inside an inactive `tab-pane` container, with no active pane
anywhere. -/
def c3dom : Dom :=
  Dom.node { tag := "body" }
    [Dom.node { tag := "div", classAttr := "tab-pane" }
      [Dom.node { tag := "h5", ownText := "The Idea Jar" } []]]

/-- Page over `c3dom`. -/
def c3page : Page :=
  { dom := c3dom,
    goto := fun _ => .ok (),
    wait_for_selector := fun _ => .error "Timeout 2000ms exceeded",
    fillProbe := fun _ _ => .err "Timeout 3000ms exceeded",
    clickProbe := fun _ => .err "Timeout 5000ms exceeded",
    timestamp := "20250101_000000" }

/-- The verify step of the matched-locator counterexample: its anchor
`Gone` is nowhere in the document. -/
def c2step : StepDict :=
  { action := "verify", target := "Verify 'Gone' in the completed tab", selectors := ["#s"] }

/-! ## The claims -/

theorem runStepsAux_length (page : Page) (steps : List StepDict) :
    ∀ k : Nat, (runStepsAux page steps k).length = steps.length := by
  induction steps with
  | nil => intro k; rfl
  | cons s rest ih =>
    intro k
    simp only [runStepsAux, List.length_cons, ih (k + 1)]

/-- C1 (amended): the orchestrator never aborts early.  Every step of the
plan is executed, a failing `navigate` step included, and the run returns
exactly one result per input step. -/
theorem c1_orchestrator_no_abort (page : Page) (steps : List StepDict) :
    (run_browser_automation page steps).length = steps.length :=
  runStepsAux_length page steps 0

/-- The two-step plan of the abort scenario: a `navigate` to an unreachable
host followed by a `wait`. -/
def c1steps : List StepDict :=
  [{ step_number := some 1, action := "navigate", target := "application",
     value := "http://unreachable.invalid/", description := "Open the app" },
   { step_number := some 2, action := "wait", value := "2000", description := "Wait" }]

/-- C1 counterexample: against an unreachable host the claimed abort does
not happen — the two-step plan yields two results, not one, and the second
step is still executed (and succeeds). -/
theorem c1_abort_counterexample :
    (run_browser_automation failPage c1steps).length = 2 ∧
    ¬(run_browser_automation failPage c1steps).length = 1 ∧
    (run_browser_automation failPage c1steps).map (fun s => s.status) =
      ["failed", "success"] := by
  refine ⟨rfl, by decide, ?_⟩
  rfl

/-- C2 (amended): a step result's matched locator (`selector_used`) is set
only when the status is `success`, with one exception: the strict-mode
location-mismatch failure, which carries the sentinel
`location_validation`. -/
theorem c2_selector_only_on_success (page : Page) (step : StepDict) (n : Nat)
    (h : (execute_step page step n).1.selector_used.isSome = true) :
    (execute_step page step n).1.status = "success" ∨
      ((execute_step page step n).1.status = "failed" ∧
        (execute_step page step n).1.selector_used = some "location_validation") :=
  execute_step_selector_spec page step n h

/-- C2 witness: the invariant applied to a concrete strict verify step. -/
theorem c2_witness :
    (execute_step c3page c2step 3).1.status = "success" ∨
      ((execute_step c3page c2step 3).1.status = "failed" ∧
        (execute_step c3page c2step 3).1.selector_used = some "location_validation") :=
  c2_selector_only_on_success c3page c2step 3 (by decide)

/-- C2 counterexample: the strict-mode location mismatch is a `failed`
result that nevertheless carries a matched-locator value. -/
theorem c2_counterexample :
    (execute_step c3page c2step 3).1.status = "failed" ∧
    (execute_step c3page c2step 3).1.selector_used = some "location_validation" ∧
    ¬(execute_step c3page c2step 3).1.selector_used = none := by
  refine ⟨by decide, by decide, by decide⟩

/-- A document where the anchor sits only under an inactive `tab-pane`,
but that pane is nested inside an active `tab-pane`. -/
def c3cedom : Dom :=
  Dom.node { tag := "div", classAttr := "tab-pane active" }
    [Dom.node { tag := "div", classAttr := "wrapper" }
      [Dom.node { tag := "div", classAttr := "tab-pane" }
        [Dom.node { tag := "h5", ownText := "The Idea Jar" } []]]]

/-- Page over `c3cedom`. -/
def c3cepage : Page :=
  { dom := c3cedom,
    goto := fun _ => .ok (),
    wait_for_selector := fun _ => .error "Timeout 2000ms exceeded",
    fillProbe := fun _ _ => .err "Timeout 3000ms exceeded",
    clickProbe := fun _ => .err "Timeout 5000ms exceeded",
    timestamp := "20250101_000000" }

/-- C3 counterexample: on a document where every occurrence of the anchor
text lies under an inactive nearest `.tab-pane` (the inactive pane being
nested inside an active pane), the strict verify executor nevertheless
returns `success` with `location_verified = true`: the second strict
pattern matches the wrapper inside the active pane, whose closest
`.tab-pane` is the outer active one. -/
theorem c3_counterexample :
    ∃ r, execute_verify_action c3cepage []
        "Verify 'The Idea Jar' in the Completed tab" 6 = .ok r ∧
      r.status = "success" ∧ r.location_verified = some true ∧
      ¬r.status = "failed" ∧
      (∀ p ∈ allNodes c3cedom, hasSub p.1.data.ownText "The Idea Jar" = true →
        isInWrongTab p.1 p.2 = true) := by
  refine ⟨_, rfl, by decide, by decide, by decide, by decide⟩

/-- C3 witness: the amended theorem applied to the canonical document
whose anchor lives only under an inactive tab pane not wrapped in an
active one. -/
theorem c3_witness :
    execute_verify_action c3page ["#x"] "Verify 'The Idea Jar' in the Completed tab" 6 =
      .ok (strictVerify c3page.dom "The Idea Jar" "completed") ∧
    (strictVerify c3page.dom "The Idea Jar" "completed").status = "failed" ∧
    ¬(strictVerify c3page.dom "The Idea Jar" "completed").status = "success" ∧
    (strictVerify c3page.dom "The Idea Jar" "completed").location_verified = some false ∧
    hasSub (strictVerify c3page.dom "The Idea Jar" "completed").message
      "LOCATION MISMATCH" = true :=
  c3_location_mismatch c3page ["#x"] "Verify 'The Idea Jar' in the Completed tab" 6
    "The Idea Jar" "completed" (by decide) (by decide) (by decide) (by decide)

/-- C10: when the target description yields both a quoted anchor and an
expected location, the verify executor answers from the strict branch —
the same result for any candidate list (supplied candidates are never
probed), and that result is either `success` or `failed`. -/
theorem c10_strict_ignores_candidates (page : Page) (selsA selsB : List String)
    (target : String) (n : Nat) (ctx loc : String)
    (hq : extractQuoted target = some ctx) (hne : ¬ctx = "")
    (hloc : extractLocation (pyLower target) = some loc) :
    execute_verify_action page selsA target n = .ok (strictVerify page.dom ctx loc) ∧
    execute_verify_action page selsA target n = execute_verify_action page selsB target n ∧
    ((strictVerify page.dom ctx loc).status = "success" ∨
      (strictVerify page.dom ctx loc).status = "failed") := by
  have key : ∀ sels : List String,
      execute_verify_action page sels target n = .ok (strictVerify page.dom ctx loc) := by
    intro sels
    simp only [execute_verify_action, hq, hloc, truthy, Option.isSome_some, Bool.and_true,
      Option.getD_some, string_isEmpty_false hne, Bool.not_false, if_pos]
  refine ⟨key selsA, (key selsA).trans (key selsB).symm, ?_⟩
  rcases strictVerify_spec page.dom ctx loc with ⟨h1, _⟩ | ⟨h1, _⟩
  · exact Or.inl h1
  · exact Or.inr h1

/-- C10 witness: two different candidate lists, same strict answer. -/
theorem c10_witness :
    execute_verify_action c3page ["#a"] "Verify 'The Idea Jar' in the Completed tab" 6 =
      .ok (strictVerify c3page.dom "The Idea Jar" "completed") ∧
    execute_verify_action c3page ["#a"] "Verify 'The Idea Jar' in the Completed tab" 6 =
      execute_verify_action c3page ["#b", "#c"] "Verify 'The Idea Jar' in the Completed tab" 6 ∧
    ((strictVerify c3page.dom "The Idea Jar" "completed").status = "success" ∨
      (strictVerify c3page.dom "The Idea Jar" "completed").status = "failed") :=
  c10_strict_ignores_candidates c3page ["#a"] ["#b", "#c"]
    "Verify 'The Idea Jar' in the Completed tab" 6 "The Idea Jar" "completed"
    (by decide) (by decide) (by decide)

/-- C5 (amended): a successful verify result carrying text holds the
integer value of the text's first contiguous decimal run as its extracted
number (`none` when the text has no digit) — except a strict-mode
location-verified success, which never carries an extracted number; and
the two reference examples evaluate as specified. -/
theorem c5_numeric_extraction (page : Page) (sels : List String) (target : String)
    (n : Nat) (r : StepResult) (t : String)
    (h : execute_verify_action page sels target n = .ok r)
    (hs : r.status = "success") (ht : r.text_content = some t) :
    (r.numeric_value = firstDigitRun t ∨
      (r.location_verified = some true ∧ r.numeric_value = none)) ∧
    firstDigitRun "Total: 7 items" = some 7 ∧
    firstDigitRun "No data" = none :=
  ⟨(verify_ok_spec h).2 hs t ht, by decide, by decide⟩

/-- A page whose driver finds a visible element reading `Total: 7 items`. -/
def c5page : Page :=
  { dom := Dom.node { tag := "body" } [],
    goto := fun _ => .ok (),
    wait_for_selector := fun _ => .ok (some { visible := true, text := some "Total: 7 items" }),
    fillProbe := fun _ _ => .err "Timeout 3000ms exceeded",
    clickProbe := fun _ => .err "Timeout 5000ms exceeded",
    timestamp := "20250101_000000" }

/-- The result of verifying `total count` against `c5page`. -/
def c5result : StepResult :=
  { status := "success",
    message := "Element 'total count' found. Content: Total: 7 items (Value: 7)",
    selector_used := some "#total",
    text_content := some "Total: 7 items",
    numeric_value := some 7 }

/-- C5 witness: the invariant applied to a concrete selector-path verify. -/
theorem c5_witness :
    (c5result.numeric_value = firstDigitRun "Total: 7 items" ∨
      (c5result.location_verified = some true ∧ c5result.numeric_value = none)) ∧
    firstDigitRun "Total: 7 items" = some 7 ∧
    firstDigitRun "No data" = none :=
  c5_numeric_extraction c5page ["#total"] "total count" 2 c5result "Total: 7 items"
    rfl (by decide) (by decide)

/-- A document whose active tab pane holds the anchor text with a digit. -/
def c5dom : Dom :=
  Dom.node { tag := "div", classAttr := "tab-pane active" }
    [Dom.node { tag := "h5", ownText := "The Idea Jar 7" } []]

/-- Page over `c5dom`. -/
def c5page2 : Page :=
  { dom := c5dom,
    goto := fun _ => .ok (),
    wait_for_selector := fun _ => .error "Timeout 2000ms exceeded",
    fillProbe := fun _ _ => .err "Timeout 3000ms exceeded",
    clickProbe := fun _ => .err "Timeout 5000ms exceeded",
    timestamp := "20250101_000000" }

/-- C5 counterexample: a strict-mode verify success whose text contains the
digit run `7`, yet whose extracted number is null — the claim's equation
fails on this execution. -/
theorem c5_counterexample :
    ∃ r, execute_verify_action c5page2 [] "Verify 'The Idea Jar 7' in the Completed tab" 6 =
        .ok r ∧
      r.status = "success" ∧ r.text_content = some "The Idea Jar 7" ∧
      firstDigitRun "The Idea Jar 7" = some 7 ∧ r.numeric_value = none ∧
      ¬r.numeric_value = firstDigitRun "The Idea Jar 7" := by
  refine ⟨_, rfl, by decide, by decide, by decide, by decide, by decide⟩

/-- C6 (amended): for a fill target mentioning `password`, the displayed
value is the length-preserving all-asterisk mask — both in the fill
executor and in the step dispatcher's log — so it shares no character with
the secret unless the secret itself contains `*`. -/
theorem c6_password_masking (target description value : String)
    (h : hasSub (pyLower target) "password" = true) :
    fill_display_value target value = maskValue value ∧
    execute_step_display_value target description value = maskValue value ∧
    (maskValue value).data.length = value.data.length ∧
    (∀ c ∈ (maskValue value).data, c = '*') ∧
    (('*' ∉ value.data) → ∀ c ∈ (fill_display_value target value).data, c ∉ value.data) := by
  have hmask : fill_display_value target value = maskValue value := by
    unfold fill_display_value
    rw [if_pos h]
  have hchar : ∀ c ∈ (maskValue value).data, c = '*' := by
    intro c hc
    simpa using List.eq_of_mem_replicate (by simpa [maskValue] using hc)
  refine ⟨hmask, ?_, by simp [maskValue], hchar, ?_⟩
  · unfold execute_step_display_value
    split
    · rfl
    next hcond =>
      cases hve : value.isEmpty with
      | true =>
        have hval : value = "" := (String.isEmpty_iff value).mp hve
        subst hval
        rfl
      | false =>
        exfalso
        rw [hve, h] at hcond
        simp at hcond
  · intro hstar c hc hcv
    rw [hmask] at hc
    exact hstar (hchar c hc ▸ hcv)

/-- C6 witness: masking a concrete password value. -/
theorem c6_witness :
    fill_display_value "user password field" "hunter2" = maskValue "hunter2" ∧
    execute_step_display_value "user password field" "type the password" "hunter2" =
      maskValue "hunter2" ∧
    (maskValue "hunter2").data.length = "hunter2".data.length ∧
    (∀ c ∈ (maskValue "hunter2").data, c = '*') ∧
    (('*' ∉ "hunter2".data) → ∀ c ∈ (fill_display_value "user password field" "hunter2").data,
      c ∉ "hunter2".data) :=
  c6_password_masking "user password field" "type the password" "hunter2" (by decide)

/-- C6 counterexample: a secret containing `*` shares a character with its
mask, so the claim's `no character of the original secret` clause fails. -/
theorem c6_counterexample :
    fill_display_value "password field" "*ab" = "***" ∧
    '*' ∈ (fill_display_value "password field" "*ab").data ∧
    '*' ∈ "*ab".data := by
  refine ⟨by decide, by decide, by decide⟩

/-- C7: a `navigate` step whose value is empty or the placeholder
`application URL` fails immediately — the result is `failed` with the
invalid-URL message and no `goto` driver call is issued (no retry). -/
theorem c7_navigate_fast_fail (page : Page) (step : StepDict) (n : Nat)
    (ha : pyLower step.action = "navigate")
    (hv : step.value = "" ∨ step.value = "application URL") :
    (execute_step page step n).1.status = "failed" ∧
    (execute_step page step n).2 = [] ∧
    (execute_step page step n).1.error =
      some ("Invalid URL: '" ++ step.value ++ "'. Expected actual URL value.") := by
  have hcond : (step.value.isEmpty || step.value == "application URL") = true := by
    rcases hv with h | h <;> rw [h] <;> decide
  simp only [execute_step, ha]
  rw [if_pos (by simp), if_pos hcond]
  exact ⟨rfl, rfl, rfl⟩

/-- The placeholder-URL navigate step. -/
def c7step : StepDict :=
  { action := "navigate", target := "application", value := "application URL",
    description := "Navigate to the application URL" }

/-- C7 witness: the placeholder URL fails fast with no driver navigation. -/
theorem c7_witness :
    (execute_step failPage c7step 1).1.status = "failed" ∧
    (execute_step failPage c7step 1).2 = [] ∧
    (execute_step failPage c7step 1).1.error =
      some ("Invalid URL: '" ++ c7step.value ++ "'. Expected actual URL value.") :=
  c7_navigate_fast_fail failPage c7step 1 (by decide) (Or.inr rfl)

/-- C8: the fallback-selector generator returns a duplicate-free list:
the raw family list with duplicates removed, keeping first occurrences
and preserving the relative order (a sublist with the same members). -/
theorem c8_fallback_selectors_dedup (target : String) :
    (generate_fallback_selectors target).Nodup ∧
    (generate_fallback_selectors target).Sublist (rawFallbackSelectors target) ∧
    ∀ s : String, s ∈ generate_fallback_selectors target ↔ s ∈ rawFallbackSelectors target :=
  ⟨dedupFirst_nodup _, dedupFirst_sublist _, fun s => mem_dedupFirst _ s⟩

/-- C9: in the fill loop, (a) a non-password read-back mismatch makes just
that candidate fail (`Value mismatch`) and the loop continue; (b) the step
as a whole errors only when every candidate's probe failed; (c) for a
password target a written candidate succeeds with the read-back comparison
skipped (whatever the field reads back). -/
theorem c9_fill_value_mismatch :
    (∀ (probe : String → String → FillOutcome) (value target sel : String)
      (rest : List String) (le : Option String) (rb : String),
      probe sel value = .ok rb → ¬rb = value →
      fill_attempts probe value target false (sel :: rest) le =
        ((fill_attempts probe value target false rest (some "Value mismatch")).1,
          sel :: (fill_attempts probe value target false rest (some "Value mismatch")).2)) ∧
    (∀ (page : Page) (sels : List String) (value target : String) (n : Nat) (e : String),
      (execute_fill_action page sels value target n).1 = .error e →
      ∀ s ∈ (if sels.isEmpty then generate_fallback_selectors target else sels),
        fillProbeOk page.fillProbe value (hasSub (pyLower target) "password") s = false) ∧
    (∀ (probe : String → String → FillOutcome) (value target sel : String)
      (rest : List String) (le : Option String) (rb : String),
      probe sel value = .ok rb →
      fill_attempts probe value target true (sel :: rest) le =
        ((some { status := "success",
                 message := "Filled '" ++ target ++ "' successfully",
                 selector_used := some sel }, le), [sel])) := by
  refine ⟨?_, ?_, ?_⟩
  · intro probe value target sel rest le rb hp hne
    simp only [fill_attempts, hp]
    rw [if_pos (by simp [bne_iff_ne, hne])]
  · intro page sels value target n e h
    simp only [execute_fill_action] at h
    split at h
    next => simp at h
    next le' tried heq =>
      exact fun s hs => fill_attempts_none (by rw [heq]) s hs
  · intro probe value target sel rest le rb hp
    simp only [fill_attempts, hp]
    simp

/-- The probe of the C9 witness: candidate `#a` writes but reads back
`WRONG`; every other candidate reads back faithfully. -/
def c9probe : String → String → FillOutcome := fun sel v =>
  if sel = "#a" then .ok "WRONG" else .ok v

/-- C9 witness: the three clauses at concrete inputs. -/
theorem c9_witness :
    (fill_attempts c9probe "val" "name field" false ("#a" :: ["#b"]) none =
      ((fill_attempts c9probe "val" "name field" false ["#b"] (some "Value mismatch")).1,
        "#a" :: (fill_attempts c9probe "val" "name field" false ["#b"]
          (some "Value mismatch")).2)) ∧
    (∀ s ∈ (if (["#z"] : List String).isEmpty then generate_fallback_selectors "name field"
        else ["#z"]),
      fillProbeOk failPage.fillProbe "val" (hasSub (pyLower "name field") "password") s
        = false) ∧
    (fill_attempts c9probe "val" "password box" true ("#a" :: []) none =
      ((some { status := "success",
               message := "Filled '" ++ "password box" ++ "' successfully",
               selector_used := some "#a" }, none), ["#a"])) :=
  ⟨c9_fill_value_mismatch.1 c9probe "val" "name field" "#a" ["#b"] none "WRONG"
      rfl (by decide),
   c9_fill_value_mismatch.2.1 failPage ["#z"] "val" "name field" 7
      "Failed to fill 'name field' after 1 attempts. Last error: Timeout 3000ms exceeded"
      rfl,
   c9_fill_value_mismatch.2.2 c9probe "val" "password box" "#a" [] none "WRONG" rfl⟩

/-- C4 (amended): both retry loops probe candidates strictly in order and
stop at the first fully successful probe.  For `fill` the probed
candidates are exactly the first `k+1` entries (`k+1` probes).  For
`click` the candidate list is deduplicated first (keeping first
occurrences), so the probed candidates are the distinct entries among the
first `k+1` — `k+1` probes only when those entries are pairwise
distinct. -/
theorem c4_probe_order :
    (∀ (page : Page) (sels : List String) (value target : String) (n k : Nat)
      (hk : k < sels.length),
      (∀ s ∈ sels.take k,
        fillProbeOk page.fillProbe value (hasSub (pyLower target) "password") s = false) →
      fillProbeOk page.fillProbe value (hasSub (pyLower target) "password")
        (sels.get ⟨k, hk⟩) = true →
      (execute_fill_action page sels value target n).2 = sels.take (k + 1) ∧
      (execute_fill_action page sels value target n).2.length = k + 1 ∧
      (execute_fill_action page sels value target n).1 = .ok
        { status := "success", message := "Filled '" ++ target ++ "' successfully",
          selector_used := some (sels.get ⟨k, hk⟩) }) ∧
    (∀ (page : Page) (sels : List String) (target : String) (n k : Nat)
      (hk : k < sels.length),
      (∀ s ∈ sels.take k, clickProbeOk page.clickProbe s = false) →
      clickProbeOk page.clickProbe (sels.get ⟨k, hk⟩) = true →
      (execute_click_action page sels target n).2 = dedupFirst (sels.take (k + 1)) ∧
      (execute_click_action page sels target n).1 = .ok
        { status := "success", message := "Clicked '" ++ target ++ "' successfully",
          selector_used := some (sels.get ⟨k, hk⟩) }) := by
  constructor
  · intro page sels value target n k hk hfail hok
    have hne : sels.isEmpty = false := by
      cases sels with
      | nil => simp at hk
      | cons a l => rfl
    have hsel : (if sels.isEmpty then generate_fallback_selectors target else sels) = sels := by
      simp [hne]
    have hdecomp : sels = sels.take k ++ (sels.get ⟨k, hk⟩ :: sels.drop (k + 1)) := by
      conv_lhs => rw [← List.take_append_drop k sels]
      rw [List.drop_eq_get_cons hk]
    obtain ⟨le', hle'⟩ := @fill_attempts_skip_failures page.fillProbe value target
      (hasSub (pyLower target) "password") (sels.take k)
      (sels.get ⟨k, hk⟩ :: sels.drop (k + 1)) none hfail
    have hhead := @fill_attempts_head_ok page.fillProbe value target
      (hasSub (pyLower target) "password") (sels.get ⟨k, hk⟩) (sels.drop (k + 1)) le' hok
    have htake : sels.take k ++ [sels.get ⟨k, hk⟩] = sels.take (k + 1) := by
      rw [← List.concat_eq_append]
      exact List.take_concat_get sels k hk
    have hrun : fill_attempts page.fillProbe value target (hasSub (pyLower target) "password")
        sels none =
      ((some { status := "success", message := "Filled '" ++ target ++ "' successfully",
               selector_used := some (sels.get ⟨k, hk⟩) }, le'), sels.take (k + 1)) := by
      conv_lhs => rw [hdecomp]
      rw [hle', hhead]
      simp only [← htake]
    simp only [execute_fill_action, hsel, hrun]
    refine ⟨trivial, ?_, trivial⟩
    rw [List.length_take]
    omega
  · intro page sels target n k hk hfail hok
    have hne : sels.isEmpty = false := by
      cases sels with
      | nil => simp at hk
      | cons a l => rfl
    have hsel : (if sels.isEmpty then generate_fallback_selectors target else sels) = sels := by
      simp [hne]
    have htake : sels.take k ++ [sels.get ⟨k, hk⟩] = sels.take (k + 1) := by
      rw [← List.concat_eq_append]
      exact List.take_concat_get sels k hk
    have hget_notin : sels.get ⟨k, hk⟩ ∉ sels.take k := by
      intro hmem
      rw [hfail _ hmem] at hok
      cases hok
    have htake1 : dedupFirst (sels.take (k + 1)) =
        dedupFirst (sels.take k) ++ [sels.get ⟨k, hk⟩] := by
      rw [← htake, dedupFirst, dedupFirstAux_append]
      congr 1
      simp only [dedupFirstAux, List.append_nil]
      rw [if_neg hget_notin]
    have hD : dedupFirst sels = dedupFirst (sels.take k) ++ (sels.get ⟨k, hk⟩ ::
        dedupFirstAux (sels.take (k + 1) ++ []) (sels.drop (k + 1))) := by
      conv_lhs =>
        rw [show sels = sels.take (k + 1) ++ sels.drop (k + 1) from
          (List.take_append_drop _ _).symm]
      rw [dedupFirst, dedupFirstAux_append]
      rw [show dedupFirstAux [] (sels.take (k + 1)) = dedupFirst (sels.take (k + 1)) from rfl,
        htake1, List.append_assoc]
      rfl
    have hPfail : ∀ s ∈ dedupFirst (sels.take k), clickProbeOk page.clickProbe s = false :=
      fun s hs => hfail s ((mem_dedupFirst _ s).mp hs)
    obtain ⟨le', hle'⟩ := @click_attempts_skip_failures page.clickProbe target
      (dedupFirst (sels.take k))
      (sels.get ⟨k, hk⟩ :: dedupFirstAux (sels.take (k + 1) ++ []) (sels.drop (k + 1)))
      none hPfail
    have hhead := @click_attempts_head_ok page.clickProbe target (sels.get ⟨k, hk⟩)
      (dedupFirstAux (sels.take (k + 1) ++ []) (sels.drop (k + 1))) le' hok
    have hrun : click_attempts page.clickProbe target (dedupFirst sels) none =
      ((some { status := "success", message := "Clicked '" ++ target ++ "' successfully",
               selector_used := some (sels.get ⟨k, hk⟩) }, le'),
        dedupFirst (sels.take (k + 1))) := by
      conv_lhs => rw [hD]
      rw [hle', hhead]
      simp only [htake1]
    simp only [execute_click_action, hsel, hrun]
    exact ⟨trivial, trivial⟩

/-- The driver of the C4 fixtures: fill succeeds only on `#b` (faithful
read-back); click succeeds only on `y` and on `b`. -/
def c4page : Page :=
  { dom := Dom.node { tag := "body" } [],
    goto := fun _ => .ok (),
    wait_for_selector := fun _ => .error "Timeout 2000ms exceeded",
    fillProbe := fun sel v => if sel = "#b" then .ok v else .err "Timeout 3000ms exceeded",
    clickProbe := fun sel =>
      if sel = "y" || sel = "b" then .found [{ visible := true }]
      else .err "Timeout 5000ms exceeded",
    timestamp := "20250101_000000" }

/-- C4 witness: first success at index 1 for both loops on duplicate-free
lists — exactly two probes, in order. -/
theorem c4_witness :
    ((execute_fill_action c4page ["#a", "#b", "#c"] "val" "name box" 4).2 = ["#a", "#b"] ∧
     (execute_fill_action c4page ["#a", "#b", "#c"] "val" "name box" 4).2.length = 1 + 1 ∧
     (execute_fill_action c4page ["#a", "#b", "#c"] "val" "name box" 4).1 = .ok
       { status := "success", message := "Filled '" ++ "name box" ++ "' successfully",
         selector_used := some "#b" }) ∧
    ((execute_click_action c4page ["x", "y"] "go button" 5).2 = dedupFirst ["x", "y"] ∧
     (execute_click_action c4page ["x", "y"] "go button" 5).1 = .ok
       { status := "success", message := "Clicked '" ++ "go button" ++ "' successfully",
         selector_used := some "y" }) :=
  ⟨c4_probe_order.1 c4page ["#a", "#b", "#c"] "val" "name box" 4 1 (by decide)
      (by decide) (by decide),
   c4_probe_order.2 c4page ["x", "y"] "go button" 5 1 (by decide) (by decide) (by decide)⟩

/-- C4 counterexample: for a click on the list `[a, a, b]` whose first
success sits at index 2, only two probes happen (the click loop
deduplicates first), not the claimed `k + 1 = 3`. -/
theorem c4_counterexample :
    (execute_click_action c4page ["a", "a", "b"] "the button" 1).2 = ["a", "b"] ∧
    (execute_click_action c4page ["a", "a", "b"] "the button" 1).2.length = 2 ∧
    ¬(execute_click_action c4page ["a", "a", "b"] "the button" 1).2.length = 2 + 1 ∧
    (∀ s ∈ (["a", "a", "b"] : List String).take 2, clickProbeOk c4page.clickProbe s = false) ∧
    clickProbeOk c4page.clickProbe "b" = true := by
  refine ⟨by decide, by decide, by decide, by decide, by decide⟩
